import Mathlib

/-!
Shallow embedding of the `integration-glue` webhook normalization pipeline.

Python values flowing out of parsed webhook payloads are modelled by the
`Json` type below; Python exceptions by `PyErr`; fallible Python code by
`Except PyErr`.  Machine-level concerns (HMAC-SHA-256) are modelled over
`List Nat` byte strings with arithmetic mod 2^32.  The impure call
`datetime.utcnow().isoformat()` appearing in every mapper is modelled by an
explicit `now : String` parameter.
-/

set_option maxRecDepth 10000

/-- A parsed JSON / plain Python data value (dict, list, str, int, bool, None).
Object fields keep insertion order, as Python dicts do. -/
inductive Json where
  | null : Json
  | bool : Bool → Json
  | num : Int → Json
  | str : String → Json
  | arr : List Json → Json
  | obj : List (String × Json) → Json

mutual

/-- Structural equality test on JSON values (Python `==` on parsed data). -/
def Json.beq : Json → Json → Bool
  | .null, .null => true
  | .bool a, .bool b => a == b
  | .num a, .num b => a == b
  | .str a, .str b => a == b
  | .arr xs, .arr ys => Json.beqList xs ys
  | .obj fs, .obj gs => Json.beqFields fs gs
  | _, _ => false

/-- Pointwise `Json.beq` on lists. -/
def Json.beqList : List Json → List Json → Bool
  | [], [] => true
  | x :: xs, y :: ys => Json.beq x y && Json.beqList xs ys
  | _, _ => false

/-- Pointwise `Json.beq` on object field lists. -/
def Json.beqFields : List (String × Json) → List (String × Json) → Bool
  | [], [] => true
  | (k, v) :: fs, (l, w) :: gs => k == l && Json.beq v w && Json.beqFields fs gs
  | _, _ => false

end

instance : BEq Json := ⟨Json.beq⟩

/-- Python exceptions that the pipeline can raise.  `jsonDecodeError` is a
subclass of `ValueError` in Python, which `isValueError` below records. -/
inductive PyErr where
  | keyError : String → PyErr
  | valueError : String → PyErr
  | jsonDecodeError : PyErr
  | typeError : String → PyErr
  | attributeError : String → PyErr
deriving DecidableEq, Repr

/-- Whether `except ValueError` catches this exception:
`json.JSONDecodeError` derives from `ValueError`. -/
def PyErr.isValueError : PyErr → Bool
  | .valueError _ => true
  | .jsonDecodeError => true
  | _ => false

/-- Field lookup on an object, `none` on a missing key or a non-object. -/
def Json.lookup? : Json → String → Option Json
  | .obj fs, k => fs.lookup k
  | _, _ => none

/-- `d[k]`: raises `KeyError` on a dict missing the key, `TypeError` when the
subscripted value is not a dict. -/
def Json.getItem : Json → String → Except PyErr Json
  | .obj fs, k =>
      match fs.lookup k with
      | some v => .ok v
      | none => .error (.keyError k)
  | _, k => .error (.typeError ("not subscriptable: " ++ k))

/-- `d.get(k, default)`: raises `AttributeError` when the receiver is not a
dict; `d.get(k)` is `dictGet d k Json.null`. -/
def Json.dictGet : Json → String → Json → Except PyErr Json
  | .obj fs, k, d => .ok ((fs.lookup k).getD d)
  | _, _, _ => .error (.attributeError "get")

/-- Python truthiness of a JSON-shaped value. -/
def Json.truthy : Json → Bool
  | .null => false
  | .bool b => b
  | .num n => n != 0
  | .str s => s != ""
  | .arr xs => !xs.isEmpty
  | .obj fs => !fs.isEmpty

/-- Python `k in x` for a string `k`: key test on dicts, membership on lists,
substring test on strings, `TypeError` otherwise. -/
def Json.pyIn (k : String) : Json → Except PyErr Bool
  | .obj fs => .ok (fs.any (fun kv => kv.1 = k))
  | .arr xs => .ok (xs.contains (.str k))
  | .str s => .ok ((List.range (s.length + 1)).any (fun i => k.toList.isPrefixOf (s.toList.drop i)))
  | _ => .error (.typeError "argument of type is not iterable")

/-- `str(x)` on a payload value (enough of Python's rendering for the values
the mappers convert: ids are ints or strings). -/
def pyStr : Json → String
  | .null => "None"
  | .bool true => "True"
  | .bool false => "False"
  | .num n => toString n
  | .str s => s
  | .arr _ => "<list>"
  | .obj _ => "<dict>"

/-- `EventType` enumeration from `schema.py`. -/
inductive EventType where
  | CODE_PUSH | CODE_COMMIT
  | PR_OPENED | PR_CLOSED | PR_MERGED | PR_REOPENED | PR_UPDATED
  | PR_REVIEWED | PR_REVIEW_REQUESTED | PR_COMMENT
  | ISSUE_OPENED | ISSUE_CLOSED | ISSUE_REOPENED | ISSUE_UPDATED | ISSUE_COMMENT
  | RELEASE_PUBLISHED | RELEASE_CREATED | RELEASE_DELETED
  | DEPLOYMENT_STARTED | DEPLOYMENT_COMPLETED | DEPLOYMENT_FAILED
deriving DecidableEq, Repr

/-- The `.value` string code of each `EventType` member. -/
def EventType.value : EventType → String
  | .CODE_PUSH => "code.push"
  | .CODE_COMMIT => "code.commit"
  | .PR_OPENED => "pr.opened"
  | .PR_CLOSED => "pr.closed"
  | .PR_MERGED => "pr.merged"
  | .PR_REOPENED => "pr.reopened"
  | .PR_UPDATED => "pr.updated"
  | .PR_REVIEWED => "pr.reviewed"
  | .PR_REVIEW_REQUESTED => "pr.review_requested"
  | .PR_COMMENT => "pr.comment"
  | .ISSUE_OPENED => "issue.opened"
  | .ISSUE_CLOSED => "issue.closed"
  | .ISSUE_REOPENED => "issue.reopened"
  | .ISSUE_UPDATED => "issue.updated"
  | .ISSUE_COMMENT => "issue.comment"
  | .RELEASE_PUBLISHED => "release.published"
  | .RELEASE_CREATED => "release.created"
  | .RELEASE_DELETED => "release.deleted"
  | .DEPLOYMENT_STARTED => "deployment.started"
  | .DEPLOYMENT_COMPLETED => "deployment.completed"
  | .DEPLOYMENT_FAILED => "deployment.failed"

/-- `ChangeType` enumeration from `schema.py`. -/
inductive ChangeType where
  | COMMIT | FILE_ADD | FILE_MODIFY | FILE_DELETE
deriving DecidableEq, Repr

/-- The `.value` string code of each `ChangeType` member. -/
def ChangeType.value : ChangeType → String
  | .COMMIT => "commit"
  | .FILE_ADD => "file.add"
  | .FILE_MODIFY => "file.modify"
  | .FILE_DELETE => "file.delete"

/-- `Actor` dataclass.  `id` is always built through `str(...)` (or the
literal `''`), hence `String`; the other fields receive raw payload values,
hence `Json`, with the dataclass defaults (`None`). -/
structure Actor where
  id : String
  username : Json
  name : Json := Json.null
  email : Json := Json.null
  avatar_url : Json := Json.null

/-- `Repository` dataclass. -/
structure Repository where
  id : String
  name : Json
  full_name : Json
  owner : Json
  url : Json
  default_branch : Json := Json.str "main"

/-- `Change` dataclass.  The three file-list fields receive the raw payload
values (`commit.get('added', [])` stores whatever the payload holds), hence
`Json` with default `[]`. -/
structure Change where
  type : ChangeType
  id : Json
  message : Json := Json.null
  timestamp : Json := Json.null
  author : Option Actor := none
  files_added : Json := Json.arr []
  files_modified : Json := Json.arr []
  files_removed : Json := Json.arr []

/-- `EventMetadata` dataclass: the wide optional-field bag, all fields
defaulting to `None` (`Json.null`), list fields to `[]`. -/
structure EventMetadata where
  ref : Json := Json.null
  before : Json := Json.null
  after : Json := Json.null
  created : Json := Json.null
  deleted : Json := Json.null
  forced : Json := Json.null
  base_ref : Json := Json.null
  compare_url : Json := Json.null
  pr_number : Json := Json.null
  pr_title : Json := Json.null
  pr_state : Json := Json.null
  pr_url : Json := Json.null
  pr_merged : Json := Json.null
  pr_draft : Json := Json.null
  pr_base_ref : Json := Json.null
  pr_head_ref : Json := Json.null
  pr_author : Json := Json.null
  issue_number : Json := Json.null
  issue_title : Json := Json.null
  issue_state : Json := Json.null
  issue_url : Json := Json.null
  issue_author : Json := Json.null
  comment_id : Json := Json.null
  comment_body : Json := Json.null
  comment_url : Json := Json.null
  review_id : Json := Json.null
  review_state : Json := Json.null
  review_body : Json := Json.null
  review_url : Json := Json.null
  release_id : Json := Json.null
  release_name : Json := Json.null
  release_tag : Json := Json.null
  release_url : Json := Json.null
  release_draft : Json := Json.null
  release_prerelease : Json := Json.null
  action : Json := Json.null
  labels : List Json := []
  assignees : List Json := []
  custom : List (String × Json) := []

/-- `StandardEvent` dataclass (the spec's CanonicalEvent). -/
structure StandardEvent where
  id : String
  type : EventType
  source : String
  timestamp : String
  actor : Actor
  repository : Repository
  metadata : EventMetadata
  changes : List Change := []
  raw_payload : Json := Json.obj []

/-- Truncation to a 32-bit word. -/
def w32 (n : Nat) : Nat := n % 4294967296

/-- 32-bit rotate right by `n`. -/
def rotr32 (n x : Nat) : Nat := w32 ((x >>> n) ||| (x <<< (32 - n)))

/-- Bitwise complement within 32 bits. -/
def not32 (x : Nat) : Nat := x ^^^ 4294967295

/-- SHA-256 round constants (FIPS 180-4), written in decimal. -/
def sha256K : List Nat :=
  [1116352408, 1899447441, 3049323471, 3921009573, 961987163,
   1508970993, 2453635748, 2870763221, 3624381080, 310598401,
   607225278, 1426881987, 1925078388, 2162078206, 2614888103,
   3248222580, 3835390401, 4022224774, 264347078, 604807628,
   770255983, 1249150122, 1555081692, 1996064986, 2554220882,
   2821834349, 2952996808, 3210313671, 3336571891, 3584528711,
   113926993, 338241895, 666307205, 773529912, 1294757372,
   1396182291, 1695183700, 1986661051, 2177026350, 2456956037,
   2730485921, 2820302411, 3259730800, 3345764771, 3516065817,
   3600352804, 4094571909, 275423344, 430227734, 506948616,
   659060556, 883997877, 958139571, 1322822218, 1537002063,
   1747873779, 1955562222, 2024104815, 2227730452, 2361852424,
   2428436474, 2756734187, 3204031479, 3329325298]

/-- SHA-256 initial hash state, written in decimal. -/
def sha256init : List Nat :=
  [1779033703, 3144134277, 1013904242, 2773480762, 1359893119,
   2600822924, 528734635, 1541459225]

/-- Pack a list of bytes into big-endian 32-bit words. -/
def bytesToWords : List Nat → List Nat
  | b0 :: b1 :: b2 :: b3 :: rest =>
      (b0 <<< 24 ||| b1 <<< 16 ||| b2 <<< 8 ||| b3) :: bytesToWords rest
  | _ => []

/-- Extend 16 message words to the 64-word schedule. -/
def sha256schedule (ws : List Nat) : List Nat :=
  let ext := (List.range 48).foldl
    (fun w _ =>
      let n := w.length
      let g := fun i => w.getD i 0
      let x := g (n - 15)
      let y := g (n - 2)
      let s0 := rotr32 7 x ^^^ rotr32 18 x ^^^ (x >>> 3)
      let s1 := rotr32 17 y ^^^ rotr32 19 y ^^^ (y >>> 10)
      w ++ [w32 (g (n - 16) + s0 + g (n - 7) + s1)])
    ws
  ext

/-- One SHA-256 compression step over the current 8-word state. -/
def sha256round (s : List Nat) (kw : Nat × Nat) : List Nat :=
  match s with
  | [a, b, c, d, e, f, g, h] =>
      let S1 := rotr32 6 e ^^^ rotr32 11 e ^^^ rotr32 25 e
      let ch := (e &&& f) ^^^ (not32 e &&& g)
      let t1 := w32 (h + S1 + ch + kw.1 + kw.2)
      let S0 := rotr32 2 a ^^^ rotr32 13 a ^^^ rotr32 22 a
      let mj := (a &&& b) ^^^ (a &&& c) ^^^ (b &&& c)
      let t2 := w32 (S0 + mj)
      [w32 (t1 + t2), a, b, c, w32 (d + t1), e, f, g]
  | t => t

/-- Compress one 64-byte block into the hash state. -/
def sha256compress (hs : List Nat) (block : List Nat) : List Nat :=
  let ws := sha256schedule (bytesToWords block)
  let s := (sha256K.zip ws).foldl sha256round hs
  (hs.zip s).map (fun p => w32 (p.1 + p.2))

/-- SHA-256 padding: `0x80`, zeros to 56 mod 64, then the bit length
big-endian in 8 bytes. -/
def sha256pad (msg : List Nat) : List Nat :=
  let L := msg.length
  let z := (120 - ((L + 1) % 64)) % 64
  let lenBytes := (List.range 8).map (fun i => ((L * 8) >>> (8 * (7 - i))) % 256)
  msg ++ [0x80] ++ List.replicate z 0 ++ lenBytes

/-- Split a byte string into 64-byte blocks (structural recursion on a fuel
argument so the kernel can evaluate it; `l.length` fuel always suffices). -/
def chunks64Go : Nat → List Nat → List (List Nat)
  | _, [] => []
  | 0, l => [l]
  | fuel + 1, b :: rest => ((b :: rest).take 64) :: chunks64Go fuel ((b :: rest).drop 64)

/-- Split a byte string into 64-byte blocks. -/
def chunks64 (l : List Nat) : List (List Nat) := chunks64Go l.length l

/-- SHA-256 of a byte string, as 32 bytes. -/
def sha256 (msg : List Nat) : List Nat :=
  let hs := (chunks64 (sha256pad msg)).foldl sha256compress sha256init
  (hs.map (fun h => (List.range 4).map (fun i => (h >>> (8 * (3 - i))) % 256))).flatten

/-- Lower-case hex digit. -/
def hexDigit (n : Nat) : Char :=
  if n < 10 then Char.ofNat (48 + n) else Char.ofNat (87 + n)

/-- Lower-case hex rendering of a byte string (`hexdigest`). -/
def bytesToHex (bs : List Nat) : String :=
  String.mk ((bs.map (fun b => [hexDigit (b / 16), hexDigit (b % 16)])).flatten)

/-- HMAC-SHA-256 (RFC 2104) of `msg` under `key`, as 32 bytes. -/
def hmac_sha256 (key msg : List Nat) : List Nat :=
  let key1 := if 64 < key.length then sha256 key else key
  let key0 := key1 ++ List.replicate (64 - key1.length) 0
  sha256 ((key0.map (fun b => b ^^^ 0x5c)) ++
          sha256 ((key0.map (fun b => b ^^^ 0x36)) ++ msg))

/-- `hmac.new(key, msg, hashlib.sha256).hexdigest()`. -/
def hmac_sha256_hexdigest (key msg : List Nat) : String :=
  bytesToHex (hmac_sha256 key msg)

/-- UTF-8 encoding of one character. -/
def utf8EncodeChar (c : Char) : List Nat :=
  let n := c.toNat
  if n < 0x80 then [n]
  else if n < 0x800 then [0xC0 ||| (n >>> 6), 0x80 ||| (n &&& 0x3F)]
  else if n < 0x10000 then
    [0xE0 ||| (n >>> 12), 0x80 ||| ((n >>> 6) &&& 0x3F), 0x80 ||| (n &&& 0x3F)]
  else
    [0xF0 ||| (n >>> 18), 0x80 ||| ((n >>> 12) &&& 0x3F),
     0x80 ||| ((n >>> 6) &&& 0x3F), 0x80 ||| (n &&& 0x3F)]

/-- `s.encode('utf-8')`. -/
def utf8Encode (s : String) : List Nat := (s.data.map utf8EncodeChar).flatten

/-- Python `s.startswith(pre)` (per code point, as Python indexes). -/
def strStartsWith (s pre : String) : Bool := pre.data.isPrefixOf s.data

/-- Python slicing `s[n:]` (per code point, as Python indexes). -/
def strDrop (s : String) (n : Nat) : String := String.mk (s.data.drop n)

/-- `GitHubWebhookHandler.verify_signature`: the secret is the handler's
`secret` bytes, `payload` the raw body bytes, `signature` the
`X-Hub-Signature-256` header value. -/
def verify_signature (secret payload : List Nat) (signature : String) : Bool :=
  if signature.data.isEmpty || !(strStartsWith signature "sha256=") then false
  else hmac_sha256_hexdigest secret payload == strDrop signature 7

/-- Sanity check of the hash model against the published SHA-256 test vector
for `"abc"`. -/
theorem sha256_abc_vector :
    bytesToHex (sha256 (utf8Encode "abc")) =
      "ba7816bf8f01cfea414140de5dae2223b00361a396177a9cb410ff61f20015ad" := by
  decide

/-- Sanity check of the HMAC model against the published HMAC-SHA-256 test
vector for key `"key"` and the quick-brown-fox message. -/
theorem hmac_sha256_fox_vector :
    hmac_sha256_hexdigest (utf8Encode "key")
        (utf8Encode "The quick brown fox jumps over the lazy dog") =
      "f7bc83f430538424b13298e6aa6fb143ef4d59a14946175997479dbc2d1a3cd8" := by
  decide

/-- Requirement that a value be iterated as a Python list
(`for x in v` / a list comprehension): `TypeError` otherwise. -/
def pyIterList : Json → Except PyErr (List Json)
  | Json.arr xs => .ok xs
  | _ => .error (.typeError "not iterable")

/-- `extract_actor` from `mappers.py`. -/
def extract_actor (user_data : Json) : Except PyErr Actor := do
  let uid ← user_data.getItem "id"
  let login ← user_data.getItem "login"
  let name ← user_data.dictGet "name" Json.null
  let email ← user_data.dictGet "email" Json.null
  let avatar ← user_data.dictGet "avatar_url" Json.null
  pure { id := pyStr uid, username := login, name := name, email := email,
         avatar_url := avatar }

/-- `extract_repository` from `mappers.py`. -/
def extract_repository (repo_data : Json) : Except PyErr Repository := do
  let rid ← repo_data.getItem "id"
  let name ← repo_data.getItem "name"
  let full_name ← repo_data.getItem "full_name"
  let owner ← repo_data.getItem "owner"
  let owner_login ← owner.getItem "login"
  let url ← repo_data.getItem "html_url"
  let default_branch ← repo_data.dictGet "default_branch" (Json.str "main")
  pure { id := pyStr rid, name := name, full_name := full_name,
         owner := owner_login, url := url, default_branch := default_branch }

/-- The loop body of `map_push_event`: one commit object to one `Change`
(field accesses in Python evaluation order). -/
def map_push_commit (commit : Json) : Except PyErr Change := do
  let cid ← commit.getItem "id"
  let msg ← commit.getItem "message"
  let ts ← commit.getItem "timestamp"
  let author ← commit.getItem "author"
  let username ← author.getItem "username"
  let name ← author.getItem "name"
  let email ← author.getItem "email"
  let added ← commit.dictGet "added" (Json.arr [])
  let modified ← commit.dictGet "modified" (Json.arr [])
  let removed ← commit.dictGet "removed" (Json.arr [])
  pure { type := ChangeType.COMMIT, id := cid, message := msg, timestamp := ts,
         author := some { id := "", username := username, name := name,
                          email := email },
         files_added := added, files_modified := modified,
         files_removed := removed }

/-- The `for commit in commits` loop of `map_push_event`. -/
def map_push_commits : List Json → Except PyErr (List Change)
  | [] => .ok []
  | c :: cs => do
      let ch ← map_push_commit c
      let chs ← map_push_commits cs
      pure (ch :: chs)

/-- `map_push_event` from `mappers.py`; `now` models
`datetime.utcnow().isoformat()`. -/
def map_push_event (now : String) (payload : Json) (delivery_id : String) :
    Except PyErr StandardEvent := do
  let commits ← payload.dictGet "commits" (Json.arr [])
  let cs ← pyIterList commits
  let changes ← map_push_commits cs
  let pusher ← payload.getItem "pusher"
  let actor ← extract_actor pusher
  let repo ← payload.getItem "repository"
  let repository ← extract_repository repo
  let ref ← payload.getItem "ref"
  let before ← payload.getItem "before"
  let after ← payload.getItem "after"
  let created ← payload.dictGet "created" (Json.bool false)
  let deleted ← payload.dictGet "deleted" (Json.bool false)
  let forced ← payload.dictGet "forced" (Json.bool false)
  let base_ref ← payload.dictGet "base_ref" Json.null
  let compare ← payload.dictGet "compare" Json.null
  pure { id := delivery_id, type := EventType.CODE_PUSH, source := "github",
         timestamp := now, actor := actor, repository := repository,
         metadata := { ref := ref, before := before, after := after,
                       created := created, deleted := deleted, forced := forced,
                       base_ref := base_ref, compare_url := compare },
         changes := changes, raw_payload := payload }

/-- The action lookup table of `map_pull_request_event`: Python builds the
dict (so `pr.get('merged')` is read first) and then `.get(action, PR_UPDATED)`;
a non-string action matches no key and falls through to the default. -/
def pr_action_type (action merged : Json) : EventType :=
  match action with
  | Json.str s =>
      if s = "opened" then EventType.PR_OPENED
      else if s = "closed" then
        (if merged.truthy then EventType.PR_MERGED else EventType.PR_CLOSED)
      else if s = "reopened" then EventType.PR_REOPENED
      else if s = "synchronize" then EventType.PR_UPDATED
      else if s = "edited" then EventType.PR_UPDATED
      else if s = "review_requested" then EventType.PR_REVIEW_REQUESTED
      else EventType.PR_UPDATED
  | _ => EventType.PR_UPDATED

/-- `map_pull_request_event` from `mappers.py`. -/
def map_pull_request_event (now : String) (payload : Json)
    (delivery_id : String) : Except PyErr StandardEvent := do
  let pr ← payload.getItem "pull_request"
  let action ← payload.getItem "action"
  let merged ← pr.dictGet "merged" Json.null
  let event_type := pr_action_type action merged
  let sender ← payload.getItem "sender"
  let actor ← extract_actor sender
  let repo ← payload.getItem "repository"
  let repository ← extract_repository repo
  let pr_number ← pr.getItem "number"
  let pr_title ← pr.getItem "title"
  let pr_state ← pr.getItem "state"
  let pr_url ← pr.getItem "html_url"
  let pr_merged ← pr.dictGet "merged" (Json.bool false)
  let pr_draft ← pr.dictGet "draft" (Json.bool false)
  let base ← pr.getItem "base"
  let pr_base_ref ← base.getItem "ref"
  let head ← pr.getItem "head"
  let pr_head_ref ← head.getItem "ref"
  let user ← pr.getItem "user"
  let pr_author ← user.getItem "login"
  let labelsJ ← pr.dictGet "labels" (Json.arr [])
  let labelObjs ← pyIterList labelsJ
  let labels ← labelObjs.mapM (fun l => l.getItem "name")
  pure { id := delivery_id, type := event_type, source := "github",
         timestamp := now, actor := actor, repository := repository,
         metadata := { pr_number := pr_number, pr_title := pr_title,
                       pr_state := pr_state, pr_url := pr_url,
                       pr_merged := pr_merged, pr_draft := pr_draft,
                       pr_base_ref := pr_base_ref, pr_head_ref := pr_head_ref,
                       pr_author := pr_author, action := action,
                       labels := labels },
         raw_payload := payload }

/-- The action lookup table of `map_issue_event` with its `ISSUE_UPDATED`
default. -/
def issue_action_type (action : Json) : EventType :=
  match action with
  | Json.str s =>
      if s = "opened" then EventType.ISSUE_OPENED
      else if s = "closed" then EventType.ISSUE_CLOSED
      else if s = "reopened" then EventType.ISSUE_REOPENED
      else if s = "edited" then EventType.ISSUE_UPDATED
      else if s = "assigned" then EventType.ISSUE_UPDATED
      else if s = "labeled" then EventType.ISSUE_UPDATED
      else EventType.ISSUE_UPDATED
  | _ => EventType.ISSUE_UPDATED

/-- `map_issue_event` from `mappers.py`. -/
def map_issue_event (now : String) (payload : Json) (delivery_id : String) :
    Except PyErr StandardEvent := do
  let issue ← payload.getItem "issue"
  let action ← payload.getItem "action"
  let event_type := issue_action_type action
  let sender ← payload.getItem "sender"
  let actor ← extract_actor sender
  let repo ← payload.getItem "repository"
  let repository ← extract_repository repo
  let issue_number ← issue.getItem "number"
  let issue_title ← issue.getItem "title"
  let issue_state ← issue.getItem "state"
  let issue_url ← issue.getItem "html_url"
  let user ← issue.getItem "user"
  let issue_author ← user.getItem "login"
  let labelsJ ← issue.dictGet "labels" (Json.arr [])
  let labelObjs ← pyIterList labelsJ
  let labels ← labelObjs.mapM (fun l => l.getItem "name")
  let assigneesJ ← issue.dictGet "assignees" (Json.arr [])
  let assigneeObjs ← pyIterList assigneesJ
  let assignees ← assigneeObjs.mapM (fun a => a.getItem "login")
  pure { id := delivery_id, type := event_type, source := "github",
         timestamp := now, actor := actor, repository := repository,
         metadata := { issue_number := issue_number, issue_title := issue_title,
                       issue_state := issue_state, issue_url := issue_url,
                       issue_author := issue_author, action := action,
                       labels := labels, assignees := assignees },
         raw_payload := payload }

/-- `map_issue_comment_event` from `mappers.py`. -/
def map_issue_comment_event (now : String) (payload : Json)
    (delivery_id : String) : Except PyErr StandardEvent := do
  let comment ← payload.getItem "comment"
  let issue ← payload.getItem "issue"
  let is_pr ← Json.pyIn "pull_request" issue
  let event_type := if is_pr then EventType.PR_COMMENT
                    else EventType.ISSUE_COMMENT
  let sender ← payload.getItem "sender"
  let actor ← extract_actor sender
  let repo ← payload.getItem "repository"
  let repository ← extract_repository repo
  let comment_id ← comment.getItem "id"
  let comment_body ← comment.getItem "body"
  let comment_url ← comment.getItem "html_url"
  let issue_number ← issue.getItem "number"
  let issue_title ← issue.getItem "title"
  let action ← payload.getItem "action"
  pure { id := delivery_id, type := event_type, source := "github",
         timestamp := now, actor := actor, repository := repository,
         metadata := { comment_id := comment_id, comment_body := comment_body,
                       comment_url := comment_url, issue_number := issue_number,
                       issue_title := issue_title, action := action },
         raw_payload := payload }

/-- `map_pull_request_review_event` from `mappers.py`. -/
def map_pull_request_review_event (now : String) (payload : Json)
    (delivery_id : String) : Except PyErr StandardEvent := do
  let review ← payload.getItem "review"
  let pr ← payload.getItem "pull_request"
  let sender ← payload.getItem "sender"
  let actor ← extract_actor sender
  let repo ← payload.getItem "repository"
  let repository ← extract_repository repo
  let review_id ← review.getItem "id"
  let review_state ← review.getItem "state"
  let review_body ← review.dictGet "body" (Json.str "")
  let review_url ← review.getItem "html_url"
  let pr_number ← pr.getItem "number"
  let pr_title ← pr.getItem "title"
  let action ← payload.getItem "action"
  pure { id := delivery_id, type := EventType.PR_REVIEWED, source := "github",
         timestamp := now, actor := actor, repository := repository,
         metadata := { review_id := review_id, review_state := review_state,
                       review_body := review_body, review_url := review_url,
                       pr_number := pr_number, pr_title := pr_title,
                       action := action },
         raw_payload := payload }

/-- `map_release_event` from `mappers.py`. -/
def map_release_event (now : String) (payload : Json) (delivery_id : String) :
    Except PyErr StandardEvent := do
  let release ← payload.getItem "release"
  let sender ← payload.getItem "sender"
  let actor ← extract_actor sender
  let repo ← payload.getItem "repository"
  let repository ← extract_repository repo
  let release_id ← release.getItem "id"
  let release_name ← release.getItem "name"
  let release_tag ← release.getItem "tag_name"
  let release_url ← release.getItem "html_url"
  let release_draft ← release.getItem "draft"
  let release_prerelease ← release.getItem "prerelease"
  let action ← payload.getItem "action"
  pure { id := delivery_id, type := EventType.RELEASE_PUBLISHED,
         source := "github", timestamp := now, actor := actor,
         repository := repository,
         metadata := { release_id := release_id, release_name := release_name,
                       release_tag := release_tag, release_url := release_url,
                       release_draft := release_draft,
                       release_prerelease := release_prerelease,
                       action := action },
         raw_payload := payload }

/-- The `event_mappers` registry built in `GitHubWebhookHandler.__init__`
(`self.event_mappers.get(event_type)` is modelled by this function). -/
def event_mappers (event_type : String) :
    Option (String → Json → String → Except PyErr StandardEvent) :=
  if event_type = "push" then some map_push_event
  else if event_type = "pull_request" then some map_pull_request_event
  else if event_type = "issues" then some map_issue_event
  else if event_type = "issue_comment" then some map_issue_comment_event
  else if event_type = "pull_request_review" then some map_pull_request_review_event
  else if event_type = "release" then some map_release_event
  else none

/-- A runtime Python value as seen by `json.dumps`: JSON-shaped data plus the
schema objects that can leak into a dict unconverted (enum members,
dataclass instances). -/
inductive PyVal where
  | pnone : PyVal
  | pbool : Bool → PyVal
  | pint : Int → PyVal
  | pstr : String → PyVal
  | plist : List PyVal → PyVal
  | pdict : List (String × PyVal) → PyVal
  | penumE : EventType → PyVal
  | penumC : ChangeType → PyVal
  | pactor : Actor → PyVal

mutual

/-- Embed parsed JSON data back into the runtime-value type. -/
def jsonToPyVal : Json → PyVal
  | .null => .pnone
  | .bool b => .pbool b
  | .num n => .pint n
  | .str s => .pstr s
  | .arr xs => .plist (jsonListToPyVal xs)
  | .obj fs => .pdict (jsonFieldsToPyVal fs)

/-- `jsonToPyVal` on a list. -/
def jsonListToPyVal : List Json → List PyVal
  | [] => []
  | x :: xs => jsonToPyVal x :: jsonListToPyVal xs

/-- `jsonToPyVal` on object fields. -/
def jsonFieldsToPyVal : List (String × Json) → List (String × PyVal)
  | [] => []
  | (k, v) :: fs => (k, jsonToPyVal v) :: jsonFieldsToPyVal fs

end

/-- `actor.__dict__`: field names to current field values, unconverted. -/
def Actor.asDict (a : Actor) : PyVal :=
  .pdict [("id", .pstr a.id), ("username", jsonToPyVal a.username),
          ("name", jsonToPyVal a.name), ("email", jsonToPyVal a.email),
          ("avatar_url", jsonToPyVal a.avatar_url)]

/-- `repository.__dict__`. -/
def Repository.asDict (r : Repository) : PyVal :=
  .pdict [("id", .pstr r.id), ("name", jsonToPyVal r.name),
          ("full_name", jsonToPyVal r.full_name),
          ("owner", jsonToPyVal r.owner), ("url", jsonToPyVal r.url),
          ("default_branch", jsonToPyVal r.default_branch)]

/-- `change.__dict__`: note that the `ChangeType` member and the nested
`Actor` are stored as-is, exactly as Python's shallow `__dict__` view. -/
def Change.asDict (c : Change) : PyVal :=
  .pdict [("type", .penumC c.type), ("id", jsonToPyVal c.id),
          ("message", jsonToPyVal c.message),
          ("timestamp", jsonToPyVal c.timestamp),
          ("author", match c.author with
                     | none => .pnone
                     | some a => .pactor a),
          ("files_added", jsonToPyVal c.files_added),
          ("files_modified", jsonToPyVal c.files_modified),
          ("files_removed", jsonToPyVal c.files_removed)]

/-- `metadata.__dict__`. -/
def EventMetadata.asDict (m : EventMetadata) : PyVal :=
  .pdict [("ref", jsonToPyVal m.ref), ("before", jsonToPyVal m.before),
          ("after", jsonToPyVal m.after), ("created", jsonToPyVal m.created),
          ("deleted", jsonToPyVal m.deleted), ("forced", jsonToPyVal m.forced),
          ("base_ref", jsonToPyVal m.base_ref),
          ("compare_url", jsonToPyVal m.compare_url),
          ("pr_number", jsonToPyVal m.pr_number),
          ("pr_title", jsonToPyVal m.pr_title),
          ("pr_state", jsonToPyVal m.pr_state),
          ("pr_url", jsonToPyVal m.pr_url),
          ("pr_merged", jsonToPyVal m.pr_merged),
          ("pr_draft", jsonToPyVal m.pr_draft),
          ("pr_base_ref", jsonToPyVal m.pr_base_ref),
          ("pr_head_ref", jsonToPyVal m.pr_head_ref),
          ("pr_author", jsonToPyVal m.pr_author),
          ("issue_number", jsonToPyVal m.issue_number),
          ("issue_title", jsonToPyVal m.issue_title),
          ("issue_state", jsonToPyVal m.issue_state),
          ("issue_url", jsonToPyVal m.issue_url),
          ("issue_author", jsonToPyVal m.issue_author),
          ("comment_id", jsonToPyVal m.comment_id),
          ("comment_body", jsonToPyVal m.comment_body),
          ("comment_url", jsonToPyVal m.comment_url),
          ("review_id", jsonToPyVal m.review_id),
          ("review_state", jsonToPyVal m.review_state),
          ("review_body", jsonToPyVal m.review_body),
          ("review_url", jsonToPyVal m.review_url),
          ("release_id", jsonToPyVal m.release_id),
          ("release_name", jsonToPyVal m.release_name),
          ("release_tag", jsonToPyVal m.release_tag),
          ("release_url", jsonToPyVal m.release_url),
          ("release_draft", jsonToPyVal m.release_draft),
          ("release_prerelease", jsonToPyVal m.release_prerelease),
          ("action", jsonToPyVal m.action),
          ("labels", .plist (m.labels.map jsonToPyVal)),
          ("assignees", .plist (m.assignees.map jsonToPyVal)),
          ("custom", .pdict (m.custom.map (fun kv => (kv.1, jsonToPyVal kv.2))))]

/-- `StandardEvent.to_dict` from `schema.py`. -/
def StandardEvent.to_dict (e : StandardEvent) : PyVal :=
  .pdict [("id", .pstr e.id), ("type", .pstr e.type.value),
          ("source", .pstr e.source), ("timestamp", .pstr e.timestamp),
          ("actor", e.actor.asDict), ("repository", e.repository.asDict),
          ("metadata", e.metadata.asDict),
          ("changes", .plist (e.changes.map Change.asDict)),
          ("raw_payload", jsonToPyVal e.raw_payload)]

mutual

/-- Whether `json.dumps` accepts this value: only `None`, booleans, numbers,
strings, lists and dicts of such; enum members and dataclass instances are
rejected with a `TypeError`. -/
def PyVal.jsonOk : PyVal → Bool
  | .pnone => true
  | .pbool _ => true
  | .pint _ => true
  | .pstr _ => true
  | .plist xs => PyVal.jsonOkList xs
  | .pdict fs => PyVal.jsonOkFields fs
  | .penumE _ => false
  | .penumC _ => false
  | .pactor _ => false

/-- `PyVal.jsonOk` over a list. -/
def PyVal.jsonOkList : List PyVal → Bool
  | [] => true
  | x :: xs => PyVal.jsonOk x && PyVal.jsonOkList xs

/-- `PyVal.jsonOk` over dict fields. -/
def PyVal.jsonOkFields : List (String × PyVal) → Bool
  | [] => true
  | (_, v) :: fs => PyVal.jsonOk v && PyVal.jsonOkFields fs

end

/-- Lookup in a `pdict`. -/
def PyVal.dlookup : PyVal → String → Option PyVal
  | .pdict fs, k => fs.lookup k
  | _, _ => none

/-- Skip JSON whitespace. -/
def skipWs : List Char → List Char
  | c :: cs =>
      if c = ' ' || c = '\t' || c = '\n' || c = '\r' then skipWs cs else c :: cs
  | [] => []

/-- Hex digit value of a character, if any. -/
def hexVal (c : Char) : Option Nat :=
  if '0' ≤ c ∧ c ≤ '9' then some (c.toNat - 48)
  else if 'a' ≤ c ∧ c ≤ 'f' then some (c.toNat - 87)
  else if 'A' ≤ c ∧ c ≤ 'F' then some (c.toNat - 70)
  else none

/-- Parse the body of a JSON string after the opening quote (fueled so the
kernel can evaluate it). -/
def jsonParseStr : Nat → List Char → Except PyErr (List Char × List Char)
  | 0, _ => .error .jsonDecodeError
  | fuel + 1, cs =>
      match cs with
      | [] => .error .jsonDecodeError
      | '"' :: rest => .ok ([], rest)
      | '\\' :: e :: rest =>
          let esc : Except PyErr (Char × List Char) :=
            if e = '"' then .ok ('"', rest)
            else if e = '\\' then .ok ('\\', rest)
            else if e = '/' then .ok ('/', rest)
            else if e = 'b' then .ok ('\x08', rest)
            else if e = 'f' then .ok ('\x0c', rest)
            else if e = 'n' then .ok ('\n', rest)
            else if e = 'r' then .ok ('\r', rest)
            else if e = 't' then .ok ('\t', rest)
            else if e = 'u' then
              match rest with
              | h1 :: h2 :: h3 :: h4 :: rest2 =>
                  match hexVal h1, hexVal h2, hexVal h3, hexVal h4 with
                  | some a, some b, some c, some d =>
                      .ok (Char.ofNat (((a * 16 + b) * 16 + c) * 16 + d), rest2)
                  | _, _, _, _ => .error .jsonDecodeError
              | _ => .error .jsonDecodeError
            else .error .jsonDecodeError
          match esc with
          | .error err => .error err
          | .ok (c, rest2) =>
              match jsonParseStr fuel rest2 with
              | .ok (s, r) => .ok (c :: s, r)
              | .error err => .error err
      | c :: rest =>
          match jsonParseStr fuel rest with
          | .ok (s, r) => .ok (c :: s, r)
          | .error err => .error err

/-- Accumulate decimal digits. -/
def jsonParseDigits : List Char → Nat → Nat × List Char
  | c :: cs, acc =>
      if c.isDigit then jsonParseDigits cs (acc * 10 + (c.toNat - 48))
      else (acc, c :: cs)
  | [], acc => (acc, [])

mutual

/-- Parse one JSON value (integer numerals only: the webhook payloads the
pipeline handles carry no floats). -/
def jsonParseVal : Nat → List Char → Except PyErr (Json × List Char)
  | 0, _ => .error .jsonDecodeError
  | fuel + 1, cs =>
      match skipWs cs with
      | 'n' :: 'u' :: 'l' :: 'l' :: rest => .ok (.null, rest)
      | 't' :: 'r' :: 'u' :: 'e' :: rest => .ok (.bool true, rest)
      | 'f' :: 'a' :: 'l' :: 's' :: 'e' :: rest => .ok (.bool false, rest)
      | '"' :: rest =>
          match jsonParseStr (fuel + 1) rest with
          | .ok (s, r) => .ok (.str (String.mk s), r)
          | .error err => .error err
      | '{' :: rest =>
          (match skipWs rest with
           | '}' :: rest2 => .ok (.obj [], rest2)
           | _ => jsonParseFields fuel rest)
      | '[' :: rest =>
          (match skipWs rest with
           | ']' :: rest2 => .ok (.arr [], rest2)
           | _ => jsonParseItems fuel rest)
      | '-' :: c :: rest =>
          if c.isDigit then
            let (n, r) := jsonParseDigits rest (c.toNat - 48)
            .ok (.num (-(n : Int)), r)
          else .error .jsonDecodeError
      | c :: rest =>
          if c.isDigit then
            let (n, r) := jsonParseDigits rest (c.toNat - 48)
            .ok (.num (n : Int), r)
          else .error .jsonDecodeError
      | [] => .error .jsonDecodeError

/-- Parse the elements of a non-empty JSON array. -/
def jsonParseItems : Nat → List Char → Except PyErr (Json × List Char)
  | 0, _ => .error .jsonDecodeError
  | fuel + 1, cs =>
      match jsonParseVal fuel cs with
      | .error err => .error err
      | .ok (v, rest) =>
          match skipWs rest with
          | ',' :: rest2 =>
              (match jsonParseItems fuel rest2 with
               | .ok (.arr vs, r) => .ok (.arr (v :: vs), r)
               | .ok _ => .error .jsonDecodeError
               | .error err => .error err)
          | ']' :: rest2 => .ok (.arr [v], rest2)
          | _ => .error .jsonDecodeError

/-- Parse the fields of a non-empty JSON object. -/
def jsonParseFields : Nat → List Char → Except PyErr (Json × List Char)
  | 0, _ => .error .jsonDecodeError
  | fuel + 1, cs =>
      match skipWs cs with
      | '"' :: rest =>
          (match jsonParseStr (fuel + 1) rest with
           | .error err => .error err
           | .ok (k, rest2) =>
               match skipWs rest2 with
               | ':' :: rest3 =>
                   (match jsonParseVal fuel rest3 with
                    | .error err => .error err
                    | .ok (v, rest4) =>
                        match skipWs rest4 with
                        | ',' :: rest5 =>
                            (match jsonParseFields fuel rest5 with
                             | .ok (.obj fs, r) =>
                                 .ok (.obj ((String.mk k, v) :: fs), r)
                             | .ok _ => .error .jsonDecodeError
                             | .error err => .error err)
                        | '}' :: rest5 => .ok (.obj [(String.mk k, v)], rest5)
                        | _ => .error .jsonDecodeError)
               | _ => .error .jsonDecodeError)
      | _ => .error .jsonDecodeError

end

/-- UTF-8 decoding of a byte string (fueled). -/
def utf8Decode : Nat → List Nat → Option (List Char)
  | _, [] => some []
  | 0, _ => none
  | fuel + 1, b :: rest =>
      if b < 0x80 then
        (utf8Decode fuel rest).map (Char.ofNat b :: ·)
      else if 0xC2 ≤ b ∧ b < 0xE0 then
        match rest with
        | b1 :: rest1 =>
            if 0x80 ≤ b1 ∧ b1 < 0xC0 then
              (utf8Decode fuel rest1).map
                (Char.ofNat ((b - 0xC0) * 64 + (b1 - 0x80)) :: ·)
            else none
        | _ => none
      else if 0xE0 ≤ b ∧ b < 0xF0 then
        match rest with
        | b1 :: b2 :: rest2 =>
            if (0x80 ≤ b1 ∧ b1 < 0xC0) ∧ (0x80 ≤ b2 ∧ b2 < 0xC0) then
              (utf8Decode fuel rest2).map
                (Char.ofNat (((b - 0xE0) * 64 + (b1 - 0x80)) * 64 + (b2 - 0x80)) :: ·)
            else none
        | _ => none
      else if 0xF0 ≤ b ∧ b < 0xF5 then
        match rest with
        | b1 :: b2 :: b3 :: rest3 =>
            if (0x80 ≤ b1 ∧ b1 < 0xC0) ∧ (0x80 ≤ b2 ∧ b2 < 0xC0) ∧
               (0x80 ≤ b3 ∧ b3 < 0xC0) then
              (utf8Decode fuel rest3).map
                (Char.ofNat ((((b - 0xF0) * 64 + (b1 - 0x80)) * 64 +
                  (b2 - 0x80)) * 64 + (b3 - 0x80)) :: ·)
            else none
        | _ => none
      else none

/-- `json.loads(body)` on raw bytes: UTF-8 decode, parse one value, demand
only whitespace afterwards.  All failures are `ValueError` subclasses. -/
def json_loads (body : List Nat) : Except PyErr Json :=
  match utf8Decode body.length body with
  | none => .error .jsonDecodeError
  | some cs =>
      match jsonParseVal (cs.length + 1) cs with
      | .error err => .error err
      | .ok (v, rest) =>
          if (skipWs rest).isEmpty then .ok v else .error .jsonDecodeError

/-- Python falsiness of `headers.get(k)`: `None` or the empty string. -/
def pyFalsyOptStr : Option String → Bool
  | none => true
  | some s => s == ""

/-- `GitHubWebhookHandler.process_webhook`. -/
def process_webhook (now : String) (event_type : String) (payload : Json)
    (delivery_id : String) : Except PyErr (Option StandardEvent) :=
  match event_mappers event_type with
  | none => .ok none
  | some mapper => (mapper now payload delivery_id).map some

/-- `GitHubWebhookHandler.handle_request`: `secret` is the constructor
argument (encoded to bytes in `__init__`). -/
def handle_request (secret now : String) (headers : List (String × String))
    (body : List Nat) : Except PyErr (Option StandardEvent) :=
  let signature := (headers.lookup "X-Hub-Signature-256").getD ""
  if !verify_signature (utf8Encode secret) body signature then
    .error (.valueError "Invalid webhook signature")
  else
    match json_loads body with
    | .error err => .error err
    | .ok payload =>
        let event_type := headers.lookup "X-GitHub-Event"
        let delivery_id := headers.lookup "X-GitHub-Delivery"
        if pyFalsyOptStr event_type || pyFalsyOptStr delivery_id then
          .error (.valueError "Missing required headers")
        else
          process_webhook now (event_type.getD "") payload (delivery_id.getD "")

/-- Observable side effects of publishing (one entry per sink invocation). -/
abbrev World := List String

/-- A publisher capability: `publish(event) -> bool`, with its side effects
made explicit by threading a `World`. -/
structure EventPublisher where
  publish : StandardEvent → World → World × Bool

/-- The list comprehension
`[publisher.publish(event) for publisher in self.publishers]`: every sink is
invoked, in order, regardless of earlier results. -/
def runSinks (publishers : List EventPublisher) (event : StandardEvent)
    (w : World) : World × List Bool :=
  match publishers with
  | [] => (w, [])
  | p :: ps =>
      let pr := p.publish event w
      let rest := runSinks ps event pr.1
      (rest.1, pr.2 :: rest.2)

/-- `MultiPublisher.publish`: run every sink in order, collect all results,
return `all(results)`. -/
def MultiPublisher.publish (publishers : List EventPublisher)
    (event : StandardEvent) (w : World) : World × Bool :=
  let wr := runSinks publishers event w
  (wr.1, wr.2.all (fun b => b))

/-- A test sink that records its invocation and returns a fixed result. -/
def mkSink (name : String) (result : Bool) : EventPublisher :=
  ⟨fun _ w => (w ++ [name], result)⟩

/-- The `/webhooks/github` Flask route `github_webhook`: `ValueError` (and
its subclasses) become a 401 response, success 200, everything else 500. -/
def github_webhook (publishers : List EventPublisher) (secret now : String)
    (headers : List (String × String)) (body : List Nat) (w : World) :
    World × Nat :=
  match handle_request secret now headers body with
  | .ok none => (w, 200)
  | .ok (some ev) =>
      let pr := MultiPublisher.publish publishers ev w
      (pr.1, if pr.2 then 200 else 500)
  | .error e => if e.isValueError then (w, 401) else (w, 500)

/-- Inversion for a successful monadic bind over `Except`. -/
theorem bindE {α β : Type} {x : Except PyErr α} {f : α → Except PyErr β}
    {b : β} (h : x >>= f = .ok b) : ∃ a, x = .ok a ∧ f a = .ok b := by
  cases x with
  | error e => exact absurd h (by simp [Bind.bind, Except.bind])
  | ok a => exact ⟨a, rfl, h⟩

/-- Inversion for `map_pull_request_event`: a successful run determines every
payload access and the shape of the produced event. -/
theorem map_pull_request_event_inv {now : String} {p : Json} {d : String}
    {ev : StandardEvent} (h : map_pull_request_event now p d = .ok ev) :
    ∃ pr action merged sender actor repo repository prn prt prs pru prm prdr
      base pbr head phr user pau labJ labObjs labels,
      p.getItem "pull_request" = .ok pr ∧
      p.getItem "action" = .ok action ∧
      pr.dictGet "merged" Json.null = .ok merged ∧
      p.getItem "sender" = .ok sender ∧
      extract_actor sender = .ok actor ∧
      p.getItem "repository" = .ok repo ∧
      extract_repository repo = .ok repository ∧
      pr.getItem "number" = .ok prn ∧
      pr.getItem "title" = .ok prt ∧
      pr.getItem "state" = .ok prs ∧
      pr.getItem "html_url" = .ok pru ∧
      pr.dictGet "merged" (Json.bool false) = .ok prm ∧
      pr.dictGet "draft" (Json.bool false) = .ok prdr ∧
      pr.getItem "base" = .ok base ∧
      base.getItem "ref" = .ok pbr ∧
      pr.getItem "head" = .ok head ∧
      head.getItem "ref" = .ok phr ∧
      pr.getItem "user" = .ok user ∧
      user.getItem "login" = .ok pau ∧
      pr.dictGet "labels" (Json.arr []) = .ok labJ ∧
      pyIterList labJ = .ok labObjs ∧
      labObjs.mapM (fun l => l.getItem "name") = .ok labels ∧
      ev = { id := d, type := pr_action_type action merged,
             source := "github", timestamp := now, actor := actor,
             repository := repository,
             metadata := { pr_number := prn, pr_title := prt, pr_state := prs,
                           pr_url := pru, pr_merged := prm, pr_draft := prdr,
                           pr_base_ref := pbr, pr_head_ref := phr,
                           pr_author := pau, action := action,
                           labels := labels },
             raw_payload := p } := by
  unfold map_pull_request_event at h
  obtain ⟨pr, h1, h⟩ := bindE h
  obtain ⟨action, h2, h⟩ := bindE h
  obtain ⟨merged, h3, h⟩ := bindE h
  obtain ⟨sender, h4, h⟩ := bindE h
  obtain ⟨actor, h5, h⟩ := bindE h
  obtain ⟨repo, h6, h⟩ := bindE h
  obtain ⟨repository, h7, h⟩ := bindE h
  obtain ⟨prn, h8, h⟩ := bindE h
  obtain ⟨prt, h9, h⟩ := bindE h
  obtain ⟨prs, h10, h⟩ := bindE h
  obtain ⟨pru, h11, h⟩ := bindE h
  obtain ⟨prm, h12, h⟩ := bindE h
  obtain ⟨prdr, h13, h⟩ := bindE h
  obtain ⟨base, h14, h⟩ := bindE h
  obtain ⟨pbr, h15, h⟩ := bindE h
  obtain ⟨head, h16, h⟩ := bindE h
  obtain ⟨phr, h17, h⟩ := bindE h
  obtain ⟨user, h18, h⟩ := bindE h
  obtain ⟨pau, h19, h⟩ := bindE h
  obtain ⟨labJ, h20, h⟩ := bindE h
  obtain ⟨labObjs, h21, h⟩ := bindE h
  obtain ⟨labels, h22, h⟩ := bindE h
  refine ⟨pr, action, merged, sender, actor, repo, repository, prn, prt, prs,
    pru, prm, prdr, base, pbr, head, phr, user, pau, labJ, labObjs, labels,
    h1, h2, h3, h4, h5, h6, h7, h8, h9, h10, h11, h12, h13, h14, h15, h16,
    h17, h18, h19, h20, h21, h22, ?_⟩
  simp only [pure, Except.pure, Except.ok.injEq] at h
  exact h.symm

/-- Inversion for `map_push_event`. -/
theorem map_push_event_inv {now : String} {p : Json} {d : String}
    {ev : StandardEvent} (h : map_push_event now p d = .ok ev) :
    ∃ commits cs changes pusher actor repo repository ref before after
      created deleted forced base_ref compare,
      p.dictGet "commits" (Json.arr []) = .ok commits ∧
      pyIterList commits = .ok cs ∧
      map_push_commits cs = .ok changes ∧
      p.getItem "pusher" = .ok pusher ∧
      extract_actor pusher = .ok actor ∧
      p.getItem "repository" = .ok repo ∧
      extract_repository repo = .ok repository ∧
      p.getItem "ref" = .ok ref ∧
      p.getItem "before" = .ok before ∧
      p.getItem "after" = .ok after ∧
      p.dictGet "created" (Json.bool false) = .ok created ∧
      p.dictGet "deleted" (Json.bool false) = .ok deleted ∧
      p.dictGet "forced" (Json.bool false) = .ok forced ∧
      p.dictGet "base_ref" Json.null = .ok base_ref ∧
      p.dictGet "compare" Json.null = .ok compare ∧
      ev = { id := d, type := EventType.CODE_PUSH, source := "github",
             timestamp := now, actor := actor, repository := repository,
             metadata := { ref := ref, before := before, after := after,
                           created := created, deleted := deleted,
                           forced := forced, base_ref := base_ref,
                           compare_url := compare },
             changes := changes, raw_payload := p } := by
  unfold map_push_event at h
  obtain ⟨commits, h1, h⟩ := bindE h
  obtain ⟨cs, h2, h⟩ := bindE h
  obtain ⟨changes, h3, h⟩ := bindE h
  obtain ⟨pusher, h4, h⟩ := bindE h
  obtain ⟨actor, h5, h⟩ := bindE h
  obtain ⟨repo, h6, h⟩ := bindE h
  obtain ⟨repository, h7, h⟩ := bindE h
  obtain ⟨ref, h8, h⟩ := bindE h
  obtain ⟨before, h9, h⟩ := bindE h
  obtain ⟨after, h10, h⟩ := bindE h
  obtain ⟨created, h11, h⟩ := bindE h
  obtain ⟨deleted, h12, h⟩ := bindE h
  obtain ⟨forced, h13, h⟩ := bindE h
  obtain ⟨base_ref, h14, h⟩ := bindE h
  obtain ⟨compare, h15, h⟩ := bindE h
  refine ⟨commits, cs, changes, pusher, actor, repo, repository, ref, before,
    after, created, deleted, forced, base_ref, compare,
    h1, h2, h3, h4, h5, h6, h7, h8, h9, h10, h11, h12, h13, h14, h15, ?_⟩
  simp only [pure, Except.pure, Except.ok.injEq] at h
  exact h.symm

/-- Inversion for `map_issue_event`. -/
theorem map_issue_event_inv {now : String} {p : Json} {d : String}
    {ev : StandardEvent} (h : map_issue_event now p d = .ok ev) :
    ∃ issue action sender actor repo repository inum ititle istate iurl user
      iauthor labJ labObjs labels assJ assObjs assignees,
      p.getItem "issue" = .ok issue ∧
      p.getItem "action" = .ok action ∧
      p.getItem "sender" = .ok sender ∧
      extract_actor sender = .ok actor ∧
      p.getItem "repository" = .ok repo ∧
      extract_repository repo = .ok repository ∧
      issue.getItem "number" = .ok inum ∧
      issue.getItem "title" = .ok ititle ∧
      issue.getItem "state" = .ok istate ∧
      issue.getItem "html_url" = .ok iurl ∧
      issue.getItem "user" = .ok user ∧
      user.getItem "login" = .ok iauthor ∧
      issue.dictGet "labels" (Json.arr []) = .ok labJ ∧
      pyIterList labJ = .ok labObjs ∧
      labObjs.mapM (fun l => l.getItem "name") = .ok labels ∧
      issue.dictGet "assignees" (Json.arr []) = .ok assJ ∧
      pyIterList assJ = .ok assObjs ∧
      assObjs.mapM (fun a => a.getItem "login") = .ok assignees ∧
      ev = { id := d, type := issue_action_type action, source := "github",
             timestamp := now, actor := actor, repository := repository,
             metadata := { issue_number := inum, issue_title := ititle,
                           issue_state := istate, issue_url := iurl,
                           issue_author := iauthor, action := action,
                           labels := labels, assignees := assignees },
             raw_payload := p } := by
  unfold map_issue_event at h
  obtain ⟨issue, h1, h⟩ := bindE h
  obtain ⟨action, h2, h⟩ := bindE h
  obtain ⟨sender, h3, h⟩ := bindE h
  obtain ⟨actor, h4, h⟩ := bindE h
  obtain ⟨repo, h5, h⟩ := bindE h
  obtain ⟨repository, h6, h⟩ := bindE h
  obtain ⟨inum, h7, h⟩ := bindE h
  obtain ⟨ititle, h8, h⟩ := bindE h
  obtain ⟨istate, h9, h⟩ := bindE h
  obtain ⟨iurl, h10, h⟩ := bindE h
  obtain ⟨user, h11, h⟩ := bindE h
  obtain ⟨iauthor, h12, h⟩ := bindE h
  obtain ⟨labJ, h13, h⟩ := bindE h
  obtain ⟨labObjs, h14, h⟩ := bindE h
  obtain ⟨labels, h15, h⟩ := bindE h
  obtain ⟨assJ, h16, h⟩ := bindE h
  obtain ⟨assObjs, h17, h⟩ := bindE h
  obtain ⟨assignees, h18, h⟩ := bindE h
  refine ⟨issue, action, sender, actor, repo, repository, inum, ititle,
    istate, iurl, user, iauthor, labJ, labObjs, labels, assJ, assObjs,
    assignees, h1, h2, h3, h4, h5, h6, h7, h8, h9, h10, h11, h12, h13, h14,
    h15, h16, h17, h18, ?_⟩
  simp only [pure, Except.pure, Except.ok.injEq] at h
  exact h.symm

/-- Inversion for `map_issue_comment_event`. -/
theorem map_issue_comment_event_inv {now : String} {p : Json} {d : String}
    {ev : StandardEvent} (h : map_issue_comment_event now p d = .ok ev) :
    ∃ comment issue is_pr sender actor repo repository cid cbody curl inum
      ititle action,
      p.getItem "comment" = .ok comment ∧
      p.getItem "issue" = .ok issue ∧
      Json.pyIn "pull_request" issue = .ok is_pr ∧
      p.getItem "sender" = .ok sender ∧
      extract_actor sender = .ok actor ∧
      p.getItem "repository" = .ok repo ∧
      extract_repository repo = .ok repository ∧
      comment.getItem "id" = .ok cid ∧
      comment.getItem "body" = .ok cbody ∧
      comment.getItem "html_url" = .ok curl ∧
      issue.getItem "number" = .ok inum ∧
      issue.getItem "title" = .ok ititle ∧
      p.getItem "action" = .ok action ∧
      ev = { id := d,
             type := if is_pr then EventType.PR_COMMENT
                     else EventType.ISSUE_COMMENT,
             source := "github", timestamp := now, actor := actor,
             repository := repository,
             metadata := { comment_id := cid, comment_body := cbody,
                           comment_url := curl, issue_number := inum,
                           issue_title := ititle, action := action },
             raw_payload := p } := by
  unfold map_issue_comment_event at h
  obtain ⟨comment, h1, h⟩ := bindE h
  obtain ⟨issue, h2, h⟩ := bindE h
  obtain ⟨is_pr, h3, h⟩ := bindE h
  obtain ⟨sender, h4, h⟩ := bindE h
  obtain ⟨actor, h5, h⟩ := bindE h
  obtain ⟨repo, h6, h⟩ := bindE h
  obtain ⟨repository, h7, h⟩ := bindE h
  obtain ⟨cid, h8, h⟩ := bindE h
  obtain ⟨cbody, h9, h⟩ := bindE h
  obtain ⟨curl, h10, h⟩ := bindE h
  obtain ⟨inum, h11, h⟩ := bindE h
  obtain ⟨ititle, h12, h⟩ := bindE h
  obtain ⟨action, h13, h⟩ := bindE h
  refine ⟨comment, issue, is_pr, sender, actor, repo, repository, cid, cbody,
    curl, inum, ititle, action,
    h1, h2, h3, h4, h5, h6, h7, h8, h9, h10, h11, h12, h13, ?_⟩
  simp only [pure, Except.pure, Except.ok.injEq] at h
  exact h.symm

/-- Inversion for `map_pull_request_review_event`. -/
theorem map_pull_request_review_event_inv {now : String} {p : Json}
    {d : String} {ev : StandardEvent}
    (h : map_pull_request_review_event now p d = .ok ev) :
    ∃ review pr sender actor repo repository rid rstate rbody rurl prn prt
      action,
      p.getItem "review" = .ok review ∧
      p.getItem "pull_request" = .ok pr ∧
      p.getItem "sender" = .ok sender ∧
      extract_actor sender = .ok actor ∧
      p.getItem "repository" = .ok repo ∧
      extract_repository repo = .ok repository ∧
      review.getItem "id" = .ok rid ∧
      review.getItem "state" = .ok rstate ∧
      review.dictGet "body" (Json.str "") = .ok rbody ∧
      review.getItem "html_url" = .ok rurl ∧
      pr.getItem "number" = .ok prn ∧
      pr.getItem "title" = .ok prt ∧
      p.getItem "action" = .ok action ∧
      ev = { id := d, type := EventType.PR_REVIEWED, source := "github",
             timestamp := now, actor := actor, repository := repository,
             metadata := { review_id := rid, review_state := rstate,
                           review_body := rbody, review_url := rurl,
                           pr_number := prn, pr_title := prt,
                           action := action },
             raw_payload := p } := by
  unfold map_pull_request_review_event at h
  obtain ⟨review, h1, h⟩ := bindE h
  obtain ⟨pr, h2, h⟩ := bindE h
  obtain ⟨sender, h3, h⟩ := bindE h
  obtain ⟨actor, h4, h⟩ := bindE h
  obtain ⟨repo, h5, h⟩ := bindE h
  obtain ⟨repository, h6, h⟩ := bindE h
  obtain ⟨rid, h7, h⟩ := bindE h
  obtain ⟨rstate, h8, h⟩ := bindE h
  obtain ⟨rbody, h9, h⟩ := bindE h
  obtain ⟨rurl, h10, h⟩ := bindE h
  obtain ⟨prn, h11, h⟩ := bindE h
  obtain ⟨prt, h12, h⟩ := bindE h
  obtain ⟨action, h13, h⟩ := bindE h
  refine ⟨review, pr, sender, actor, repo, repository, rid, rstate, rbody,
    rurl, prn, prt, action,
    h1, h2, h3, h4, h5, h6, h7, h8, h9, h10, h11, h12, h13, ?_⟩
  simp only [pure, Except.pure, Except.ok.injEq] at h
  exact h.symm

/-- Inversion for `map_release_event`. -/
theorem map_release_event_inv {now : String} {p : Json} {d : String}
    {ev : StandardEvent} (h : map_release_event now p d = .ok ev) :
    ∃ release sender actor repo repository relid relname reltag relurl
      reldraft relpre action,
      p.getItem "release" = .ok release ∧
      p.getItem "sender" = .ok sender ∧
      extract_actor sender = .ok actor ∧
      p.getItem "repository" = .ok repo ∧
      extract_repository repo = .ok repository ∧
      release.getItem "id" = .ok relid ∧
      release.getItem "name" = .ok relname ∧
      release.getItem "tag_name" = .ok reltag ∧
      release.getItem "html_url" = .ok relurl ∧
      release.getItem "draft" = .ok reldraft ∧
      release.getItem "prerelease" = .ok relpre ∧
      p.getItem "action" = .ok action ∧
      ev = { id := d, type := EventType.RELEASE_PUBLISHED, source := "github",
             timestamp := now, actor := actor, repository := repository,
             metadata := { release_id := relid, release_name := relname,
                           release_tag := reltag, release_url := relurl,
                           release_draft := reldraft,
                           release_prerelease := relpre, action := action },
             raw_payload := p } := by
  unfold map_release_event at h
  obtain ⟨release, h1, h⟩ := bindE h
  obtain ⟨sender, h2, h⟩ := bindE h
  obtain ⟨actor, h3, h⟩ := bindE h
  obtain ⟨repo, h4, h⟩ := bindE h
  obtain ⟨repository, h5, h⟩ := bindE h
  obtain ⟨relid, h6, h⟩ := bindE h
  obtain ⟨relname, h7, h⟩ := bindE h
  obtain ⟨reltag, h8, h⟩ := bindE h
  obtain ⟨relurl, h9, h⟩ := bindE h
  obtain ⟨reldraft, h10, h⟩ := bindE h
  obtain ⟨relpre, h11, h⟩ := bindE h
  obtain ⟨action, h12, h⟩ := bindE h
  refine ⟨release, sender, actor, repo, repository, relid, relname, reltag,
    relurl, reldraft, relpre, action,
    h1, h2, h3, h4, h5, h6, h7, h8, h9, h10, h11, h12, ?_⟩
  simp only [pure, Except.pure, Except.ok.injEq] at h
  exact h.symm

/-- Inversion for `map_push_commit`. -/
theorem map_push_commit_inv {c : Json} {ch : Change}
    (h : map_push_commit c = .ok ch) :
    ∃ cid msg ts author username name email added modified removed,
      c.getItem "id" = .ok cid ∧
      c.getItem "message" = .ok msg ∧
      c.getItem "timestamp" = .ok ts ∧
      c.getItem "author" = .ok author ∧
      author.getItem "username" = .ok username ∧
      author.getItem "name" = .ok name ∧
      author.getItem "email" = .ok email ∧
      c.dictGet "added" (Json.arr []) = .ok added ∧
      c.dictGet "modified" (Json.arr []) = .ok modified ∧
      c.dictGet "removed" (Json.arr []) = .ok removed ∧
      ch = { type := ChangeType.COMMIT, id := cid, message := msg,
             timestamp := ts,
             author := some { id := "", username := username, name := name,
                              email := email },
             files_added := added, files_modified := modified,
             files_removed := removed } := by
  unfold map_push_commit at h
  obtain ⟨cid, h1, h⟩ := bindE h
  obtain ⟨msg, h2, h⟩ := bindE h
  obtain ⟨ts, h3, h⟩ := bindE h
  obtain ⟨author, h4, h⟩ := bindE h
  obtain ⟨username, h5, h⟩ := bindE h
  obtain ⟨name, h6, h⟩ := bindE h
  obtain ⟨email, h7, h⟩ := bindE h
  obtain ⟨added, h8, h⟩ := bindE h
  obtain ⟨modified, h9, h⟩ := bindE h
  obtain ⟨removed, h10, h⟩ := bindE h
  refine ⟨cid, msg, ts, author, username, name, email, added, modified,
    removed, h1, h2, h3, h4, h5, h6, h7, h8, h9, h10, ?_⟩
  simp only [pure, Except.pure, Except.ok.injEq] at h
  exact h.symm

/-- Pointwise inversion for the push-commit loop: success yields one `Change`
per commit, in order. -/
theorem map_push_commits_inv : ∀ {cs : List Json} {chs : List Change},
    map_push_commits cs = .ok chs →
    chs.length = cs.length ∧
    ∀ i (hi : i < cs.length) (hi2 : i < chs.length),
      map_push_commit (cs.get ⟨i, hi⟩) = .ok (chs.get ⟨i, hi2⟩) := by
  intro cs
  induction cs with
  | nil =>
      intro chs h
      simp only [map_push_commits] at h
      have hc : chs = [] := by
        cases h; rfl
      subst hc
      exact ⟨rfl, by intro i hi _; simp at hi⟩
  | cons c cs ih =>
      intro chs h
      unfold map_push_commits at h
      obtain ⟨ch, h1, h⟩ := bindE h
      obtain ⟨chs', h2, h⟩ := bindE h
      have hc : chs = ch :: chs' := by
        simp only [pure, Except.pure, Except.ok.injEq] at h
        exact h.symm
      subst hc
      obtain ⟨hlen, hpt⟩ := ih h2
      refine ⟨by simp [hlen], ?_⟩
      intro i hi hi2
      match i with
      | 0 => exact h1
      | Nat.succ j =>
          exact hpt j (by simpa using hi) (by simpa using hi2)

/-- Sender fixture shared by the payload fixtures below. -/
def senderFixture : Json :=
  Json.obj [("id", Json.num 1), ("login", Json.str "testuser")]

/-- Repository fixture shared by the payload fixtures below. -/
def repoFixture : Json :=
  Json.obj [("id", Json.num 123), ("name", Json.str "test-repo"),
            ("full_name", Json.str "testuser/test-repo"),
            ("owner", Json.obj [("login", Json.str "testuser")]),
            ("html_url", Json.str "https://github.com/testuser/test-repo")]

/-- The `Repository` record the fixtures map to. -/
def repoFixtureRecord : Repository :=
  { id := "123", name := Json.str "test-repo",
    full_name := Json.str "testuser/test-repo",
    owner := Json.str "testuser",
    url := Json.str "https://github.com/testuser/test-repo",
    default_branch := Json.str "main" }

/-- The `Actor` record the fixtures map to. -/
def actorFixtureRecord : Actor :=
  { id := "1", username := Json.str "testuser" }

/-- Commit object fixture. -/
def commitFixture : Json :=
  Json.obj [("id", Json.str "def456"), ("message", Json.str "Test commit"),
            ("timestamp", Json.str "2026-02-27T21:00:00Z"),
            ("author", Json.obj [("username", Json.str "testuser"),
                                 ("name", Json.str "Test User"),
                                 ("email", Json.str "test@example.com")]),
            ("added", Json.arr [Json.str "file1.txt"]),
            ("modified", Json.arr [Json.str "file2.txt"]),
            ("removed", Json.arr [])]

/-- Push payload fixture with one commit. -/
def pushFixturePayload : Json :=
  Json.obj [("ref", Json.str "refs/heads/main"),
            ("before", Json.str "abc123"), ("after", Json.str "def456"),
            ("pusher", senderFixture), ("repository", repoFixture),
            ("commits", Json.arr [commitFixture])]

/-- The event `map_push_event` produces from `pushFixturePayload`. -/
def pushFixtureEvent : StandardEvent :=
  { id := "d-push", type := EventType.CODE_PUSH, source := "github",
    timestamp := "T", actor := actorFixtureRecord,
    repository := repoFixtureRecord,
    metadata := { ref := Json.str "refs/heads/main",
                  before := Json.str "abc123", after := Json.str "def456",
                  created := Json.bool false, deleted := Json.bool false,
                  forced := Json.bool false },
    changes := [{ type := ChangeType.COMMIT, id := Json.str "def456",
                  message := Json.str "Test commit",
                  timestamp := Json.str "2026-02-27T21:00:00Z",
                  author := some { id := "",
                                   username := Json.str "testuser",
                                   name := Json.str "Test User",
                                   email := Json.str "test@example.com" },
                  files_added := Json.arr [Json.str "file1.txt"],
                  files_modified := Json.arr [Json.str "file2.txt"],
                  files_removed := Json.arr [] }],
    raw_payload := pushFixturePayload }

/-- The push fixture maps to exactly `pushFixtureEvent`. -/
theorem pushFixture_maps : map_push_event "T" pushFixturePayload "d-push"
    = .ok pushFixtureEvent := by rfl

/-- Pull-request object fixture, with no `merged`/`draft`/`labels` keys. -/
def prFixtureObject : Json :=
  Json.obj [("number", Json.num 42),
            ("title", Json.str "Add new feature"),
            ("state", Json.str "open"),
            ("html_url", Json.str "https://github.com/testuser/test-repo/pull/42"),
            ("user", Json.obj [("login", Json.str "testuser")]),
            ("base", Json.obj [("ref", Json.str "main")]),
            ("head", Json.obj [("ref", Json.str "feature-branch")])]

/-- Pull-request payload fixture, action `opened`. -/
def prFixturePayload : Json :=
  Json.obj [("action", Json.str "opened"), ("sender", senderFixture),
            ("repository", repoFixture),
            ("pull_request", prFixtureObject)]

/-- The event `map_pull_request_event` produces from `prFixturePayload`. -/
def prFixtureEvent : StandardEvent :=
  { id := "d-pr", type := EventType.PR_OPENED, source := "github",
    timestamp := "T", actor := actorFixtureRecord,
    repository := repoFixtureRecord,
    metadata := { pr_number := Json.num 42,
                  pr_title := Json.str "Add new feature",
                  pr_state := Json.str "open",
                  pr_url := Json.str "https://github.com/testuser/test-repo/pull/42",
                  pr_merged := Json.bool false, pr_draft := Json.bool false,
                  pr_base_ref := Json.str "main",
                  pr_head_ref := Json.str "feature-branch",
                  pr_author := Json.str "testuser",
                  action := Json.str "opened", labels := [] },
    raw_payload := prFixturePayload }

/-- The pull-request fixture maps to exactly `prFixtureEvent`. -/
theorem prFixture_maps : map_pull_request_event "T" prFixturePayload "d-pr"
    = .ok prFixtureEvent := by rfl

/-- Issue payload fixture, action `opened`. -/
def issueFixturePayload : Json :=
  Json.obj [("action", Json.str "opened"), ("sender", senderFixture),
            ("repository", repoFixture),
            ("issue", Json.obj [
              ("number", Json.num 7), ("title", Json.str "Bug"),
              ("state", Json.str "open"),
              ("html_url", Json.str "https://github.com/testuser/test-repo/issues/7"),
              ("user", Json.obj [("login", Json.str "testuser")])])]

/-- The event `map_issue_event` produces from `issueFixturePayload`. -/
def issueFixtureEvent : StandardEvent :=
  { id := "d-issue", type := EventType.ISSUE_OPENED, source := "github",
    timestamp := "T", actor := actorFixtureRecord,
    repository := repoFixtureRecord,
    metadata := { issue_number := Json.num 7, issue_title := Json.str "Bug",
                  issue_state := Json.str "open",
                  issue_url := Json.str "https://github.com/testuser/test-repo/issues/7",
                  issue_author := Json.str "testuser",
                  action := Json.str "opened", labels := [], assignees := [] },
    raw_payload := issueFixturePayload }

/-- The issue fixture maps to exactly `issueFixtureEvent`. -/
theorem issueFixture_maps : map_issue_event "T" issueFixturePayload "d-issue"
    = .ok issueFixtureEvent := by rfl

/-- Issue-comment payload fixture whose issue carries pull-request linkage. -/
def commentFixturePayload : Json :=
  Json.obj [("action", Json.str "created"), ("sender", senderFixture),
            ("repository", repoFixture),
            ("comment", Json.obj [
              ("id", Json.num 5), ("body", Json.str "hi"),
              ("html_url", Json.str "https://example.com/c/5")]),
            ("issue", Json.obj [
              ("number", Json.num 7), ("title", Json.str "Bug"),
              ("pull_request", Json.obj [("url", Json.str "pru")])])]

/-- The event `map_issue_comment_event` produces from
`commentFixturePayload`. -/
def commentFixtureEvent : StandardEvent :=
  { id := "d-comment", type := EventType.PR_COMMENT, source := "github",
    timestamp := "T", actor := actorFixtureRecord,
    repository := repoFixtureRecord,
    metadata := { comment_id := Json.num 5, comment_body := Json.str "hi",
                  comment_url := Json.str "https://example.com/c/5",
                  issue_number := Json.num 7, issue_title := Json.str "Bug",
                  action := Json.str "created" },
    raw_payload := commentFixturePayload }

/-- The issue-comment fixture maps to exactly `commentFixtureEvent`. -/
theorem commentFixture_maps :
    map_issue_comment_event "T" commentFixturePayload "d-comment"
      = .ok commentFixtureEvent := by rfl

/-- Review object fixture without a `body` key. -/
def reviewFixtureObject : Json :=
  Json.obj [("id", Json.num 9), ("state", Json.str "approved"),
            ("html_url", Json.str "https://example.com/r/9")]

/-- Review payload fixture without a review `body` key. -/
def reviewFixturePayload : Json :=
  Json.obj [("action", Json.str "submitted"), ("sender", senderFixture),
            ("repository", repoFixture),
            ("review", reviewFixtureObject),
            ("pull_request", Json.obj [
              ("number", Json.num 42),
              ("title", Json.str "Add new feature")])]

/-- The event `map_pull_request_review_event` produces from
`reviewFixturePayload`. -/
def reviewFixtureEvent : StandardEvent :=
  { id := "d-review", type := EventType.PR_REVIEWED, source := "github",
    timestamp := "T", actor := actorFixtureRecord,
    repository := repoFixtureRecord,
    metadata := { review_id := Json.num 9,
                  review_state := Json.str "approved",
                  review_body := Json.str "",
                  review_url := Json.str "https://example.com/r/9",
                  pr_number := Json.num 42,
                  pr_title := Json.str "Add new feature",
                  action := Json.str "submitted" },
    raw_payload := reviewFixturePayload }

/-- The review fixture maps to exactly `reviewFixtureEvent`. -/
theorem reviewFixture_maps :
    map_pull_request_review_event "T" reviewFixturePayload "d-review"
      = .ok reviewFixtureEvent := by rfl

/-- Release payload fixture. -/
def releaseFixturePayload : Json :=
  Json.obj [("action", Json.str "published"), ("sender", senderFixture),
            ("repository", repoFixture),
            ("release", Json.obj [
              ("id", Json.num 3), ("name", Json.str "v1"),
              ("tag_name", Json.str "v1.0"),
              ("html_url", Json.str "https://example.com/rel/3"),
              ("draft", Json.bool false), ("prerelease", Json.bool false)])]

/-- The event `map_release_event` produces from `releaseFixturePayload`. -/
def releaseFixtureEvent : StandardEvent :=
  { id := "d-release", type := EventType.RELEASE_PUBLISHED,
    source := "github", timestamp := "T", actor := actorFixtureRecord,
    repository := repoFixtureRecord,
    metadata := { release_id := Json.num 3, release_name := Json.str "v1",
                  release_tag := Json.str "v1.0",
                  release_url := Json.str "https://example.com/rel/3",
                  release_draft := Json.bool false,
                  release_prerelease := Json.bool false,
                  action := Json.str "published" },
    raw_payload := releaseFixturePayload }

/-- The release fixture maps to exactly `releaseFixtureEvent`. -/
theorem releaseFixture_maps :
    map_release_event "T" releaseFixturePayload "d-release"
      = .ok releaseFixtureEvent := by rfl

/-- A successful `.get(k, d)` returns the stored value or the default. -/
theorem dictGet_ok_lookup {j : Json} {k : String} {d v : Json}
    (h : j.dictGet k d = .ok v) : v = (j.lookup? k).getD d := by
  cases j with
  | obj fs =>
      simp only [Json.dictGet, Except.ok.injEq] at h
      simpa [Json.lookup?] using h.symm
  | null => exact absurd h (by simp [Json.dictGet])
  | bool b => exact absurd h (by simp [Json.dictGet])
  | num n => exact absurd h (by simp [Json.dictGet])
  | str s => exact absurd h (by simp [Json.dictGet])
  | arr xs => exact absurd h (by simp [Json.dictGet])

/-- `any (·.fst = k)` agrees with `lookup k` on association lists:
the Python `k in d` test and `d.get(k)` see the same keys. -/
theorem any_fst_eq_lookup_isSome (fs : List (String × Json)) (k : String) :
    fs.any (fun kv => kv.1 = k) = (fs.lookup k).isSome := by
  induction fs with
  | nil => simp
  | cons kv fs ih =>
      by_cases h : kv.1 = k
      · have hb : (k == kv.1) = true := by simp [h]
        simp [List.lookup, h, hb]
      · have hb : (k == kv.1) = false := beq_eq_false_iff_ne.mpr (Ne.symm h)
        simp [List.lookup, h, hb, ih]

/-- C5: `MultiPublisher.publish` invokes every sink in list order (all are
attempted, no short-circuit) and returns the conjunction of their results;
in particular `[ok, fail, ok]` invokes all three and returns false, and
`[ok, ok]` returns true. -/
theorem MultiPublisher_publish_spec :
    (∀ (specs : List (String × Bool)) (ev : StandardEvent) (w : World),
       MultiPublisher.publish (specs.map (fun s => mkSink s.1 s.2)) ev w
         = (w ++ specs.map (fun s => s.1), specs.all (fun s => s.2))) ∧
    (∀ ev : StandardEvent,
       MultiPublisher.publish
         [mkSink "ok1" true, mkSink "fail" false, mkSink "ok2" true] ev []
         = (["ok1", "fail", "ok2"], false)) ∧
    (∀ ev : StandardEvent,
       MultiPublisher.publish [mkSink "ok1" true, mkSink "ok2" true] ev []
         = (["ok1", "ok2"], true)) := by
  have key : ∀ (specs : List (String × Bool)) (ev : StandardEvent)
      (w : World),
      runSinks (specs.map (fun s => mkSink s.1 s.2)) ev w
        = (w ++ specs.map (fun s => s.1), specs.map (fun s => s.2)) := by
    intro specs
    induction specs with
    | nil => intro ev w; simp [runSinks]
    | cons s specs ih =>
        intro ev w
        simp only [List.map_cons, runSinks]
        rw [ih]
        simp [mkSink]
  have main : ∀ (specs : List (String × Bool)) (ev : StandardEvent)
      (w : World),
      MultiPublisher.publish (specs.map (fun s => mkSink s.1 s.2)) ev w
        = (w ++ specs.map (fun s => s.1), specs.all (fun s => s.2)) := by
    intro specs ev w
    unfold MultiPublisher.publish
    rw [key]
    have hall : ∀ (l : List (String × Bool)),
        ((l.map (fun s => s.2)).all fun b => b) = l.all fun s => s.2 := by
      intro l
      induction l with
      | nil => rfl
      | cons x xs ih => simp [ih]
    simp [hall]
  refine ⟨main, ?_, ?_⟩
  · intro ev
    have h := main [("ok1", true), ("fail", false), ("ok2", true)] ev []
    simpa using h
  · intro ev
    have h := main [("ok1", true), ("ok2", true)] ev []
    simpa using h

/-- The characteristic equation of `verify_signature`. -/
theorem verify_signature_eq (secret body : List Nat) (sig : String) :
    verify_signature secret body sig
      = (strStartsWith sig "sha256="
         && (hmac_sha256_hexdigest secret body == strDrop sig 7)) := by
  unfold verify_signature
  by_cases hs : sig.data.isEmpty
  · have hd : sig.data = [] := by simpa using hs
    have hpre : strStartsWith sig "sha256=" = false := by
      unfold strStartsWith
      rw [hd]
      rfl
    simp [hs, hpre]
  · have hs' : sig.data.isEmpty = false := by simpa using hs
    cases hst : strStartsWith sig "sha256=" <;> simp [hs', hst]

/-- C2: `verify_signature` equals the check "header has the `sha256=` prefix
and its suffix is the hex HMAC-SHA-256 digest of the body under the secret";
consequently it returns false (never raising) on an empty or unprefixed
header, true on the correct digest, and false on any (secret, body) change
that alters the digest. -/
theorem verify_signature_spec (secret body : List Nat) (sig : String) :
    (verify_signature secret body sig
       = (strStartsWith sig "sha256="
          && (hmac_sha256_hexdigest secret body == strDrop sig 7))) ∧
    (sig = "" → verify_signature secret body sig = false) ∧
    (strStartsWith sig "sha256=" = false →
       verify_signature secret body sig = false) ∧
    (strStartsWith sig "sha256=" = true →
       hmac_sha256_hexdigest secret body = strDrop sig 7 →
       verify_signature secret body sig = true) ∧
    (∀ secret' body', verify_signature secret body sig = true →
       hmac_sha256_hexdigest secret' body'
         ≠ hmac_sha256_hexdigest secret body →
       verify_signature secret' body' sig = false) := by
  refine ⟨verify_signature_eq secret body sig, ?_, ?_, ?_, ?_⟩
  · intro hs
    subst hs
    rw [verify_signature_eq]
    have hpre : strStartsWith "" "sha256=" = false := by rfl
    simp [hpre]
  · intro hst
    rw [verify_signature_eq, hst]
    simp
  · intro hst hdig
    rw [verify_signature_eq, hst, hdig]
    simp
  · intro secret' body' htrue hdiff
    rw [verify_signature_eq] at htrue
    have hst : strStartsWith sig "sha256=" = true :=
      (Bool.and_eq_true _ _ ▸ htrue).1
    have h2 : (hmac_sha256_hexdigest secret body == strDrop sig 7) = true :=
      (Bool.and_eq_true _ _ ▸ htrue).2
    have hdig : hmac_sha256_hexdigest secret body = strDrop sig 7 := by
      simpa using h2
    have hdiff2 : (hmac_sha256_hexdigest secret' body' == strDrop sig 7)
        = false := by
      rw [← hdig]
      simpa [beq_eq_false_iff_ne] using hdiff
    rw [verify_signature_eq, hdiff2]
    simp

/-- Issue-comment payload fixture whose issue has no pull-request linkage. -/
def commentIssueFixturePayload : Json :=
  Json.obj [("action", Json.str "created"), ("sender", senderFixture),
            ("repository", repoFixture),
            ("comment", Json.obj [
              ("id", Json.num 6), ("body", Json.str "plain"),
              ("html_url", Json.str "https://example.com/c/6")]),
            ("issue", Json.obj [
              ("number", Json.num 8), ("title", Json.str "Question")])]

/-- The event `map_issue_comment_event` produces from
`commentIssueFixturePayload`. -/
def commentIssueFixtureEvent : StandardEvent :=
  { id := "d-comment2", type := EventType.ISSUE_COMMENT, source := "github",
    timestamp := "T", actor := actorFixtureRecord,
    repository := repoFixtureRecord,
    metadata := { comment_id := Json.num 6, comment_body := Json.str "plain",
                  comment_url := Json.str "https://example.com/c/6",
                  issue_number := Json.num 8,
                  issue_title := Json.str "Question",
                  action := Json.str "created" },
    raw_payload := commentIssueFixturePayload }

/-- The plain issue-comment fixture maps to exactly
`commentIssueFixtureEvent`. -/
theorem commentIssueFixture_maps :
    map_issue_comment_event "T" commentIssueFixturePayload "d-comment2"
      = .ok commentIssueFixtureEvent := by rfl

/-- C1: for a pull-request payload with a `pull_request` object and a string
`action`, a successful `map_pull_request_event` assigns the event type by the
action table: `closed` splits on the `merged` flag (true gives MERGED; false
or absent gives CLOSED), the four 1:1 rows hold, and every action outside
the table falls back to PR_UPDATED. -/
theorem pr_action_table_spec (now d : String) (p pr : Json) (a : String)
    (ev : StandardEvent)
    (hpr : p.getItem "pull_request" = .ok pr)
    (ha : p.getItem "action" = .ok (Json.str a))
    (hev : map_pull_request_event now p d = .ok ev) :
    (a = "opened" → ev.type = EventType.PR_OPENED) ∧
    (a = "closed" → pr.lookup? "merged" = some (Json.bool true) →
       ev.type = EventType.PR_MERGED) ∧
    (a = "closed" →
       (pr.lookup? "merged" = some (Json.bool false) ∨
        pr.lookup? "merged" = none) →
       ev.type = EventType.PR_CLOSED) ∧
    (a = "reopened" → ev.type = EventType.PR_REOPENED) ∧
    ((a = "synchronize" ∨ a = "edited") → ev.type = EventType.PR_UPDATED) ∧
    (a = "review_requested" → ev.type = EventType.PR_REVIEW_REQUESTED) ∧
    (a ∉ (["opened", "closed", "reopened", "synchronize", "edited",
           "review_requested"] : List String) →
       ev.type = EventType.PR_UPDATED) := by
  obtain ⟨pr0, action0, merged, _s1, _s2, _s3, _s4, _s5, _s6, _s7, _s8, _s9,
    _s10, _s11, _s12, _s13, _s14, _s15, _s16, _s17, _s18, _s19,
    h1, h2, h3, -, -, -, -, -, -, -, -, -, -, -, -, -, -, -, -, -, -, -,
    hevEq⟩ := map_pull_request_event_inv hev
  have hpr0 : pr0 = pr := by
    have h := h1.symm.trans hpr
    injection h
  have haction : action0 = Json.str a := by
    have h := h2.symm.trans ha
    injection h
  have h3' : pr.dictGet "merged" Json.null = .ok merged := hpr0 ▸ h3
  have hm : merged = (pr.lookup? "merged").getD Json.null :=
    dictGet_ok_lookup h3'
  rw [haction] at hevEq
  subst hevEq
  refine ⟨?_, ?_, ?_, ?_, ?_, ?_, ?_⟩
  · intro h; subst h; simp [pr_action_type]
  · intro h hsome; subst h
    rw [hsome] at hm
    simp only [Option.getD_some] at hm
    subst hm
    simp [pr_action_type, Json.truthy]
  · intro h hcases; subst h
    cases hcases with
    | inl hfalse =>
        rw [hfalse] at hm
        simp only [Option.getD_some] at hm
        subst hm
        simp [pr_action_type, Json.truthy]
    | inr hnone =>
        rw [hnone] at hm
        simp only [Option.getD_none] at hm
        subst hm
        simp [pr_action_type, Json.truthy]
  · intro h; subst h; simp [pr_action_type]
  · intro h
    cases h with
    | inl h => subst h; simp [pr_action_type]
    | inr h => subst h; simp [pr_action_type]
  · intro h; subst h; simp [pr_action_type]
  · intro h
    simp only [List.mem_cons, List.mem_singleton, not_or] at h
    obtain ⟨hn1, hn2, hn3, hn4, hn5, hn6⟩ := h
    simp [pr_action_type, hn1, hn2, hn3, hn4, hn5, hn6]

/-- Witness for C1 at the concrete `opened` fixture. -/
theorem pr_action_table_spec_witness :
    map_pull_request_event "T" prFixturePayload "d-pr" = .ok prFixtureEvent ∧
    prFixtureEvent.type = EventType.PR_OPENED :=
  ⟨prFixture_maps,
   (pr_action_table_spec "T" "d-pr" prFixturePayload _ "opened"
      prFixtureEvent (by rfl) (by rfl) prFixture_maps).1 rfl⟩

/-- C4: for an issue-comment payload whose `issue` is an object, a successful
`map_issue_comment_event` yields PR_COMMENT exactly when the issue object
contains a `pull_request` key, and ISSUE_COMMENT otherwise. -/
theorem issue_comment_type_spec (now d : String) (p issue : Json)
    (fs : List (String × Json)) (ev : StandardEvent)
    (hi : p.getItem "issue" = .ok issue)
    (hfs : issue = Json.obj fs)
    (hev : map_issue_comment_event now p d = .ok ev) :
    (ev.type = EventType.PR_COMMENT ↔ (issue.lookup? "pull_request").isSome) ∧
    ((issue.lookup? "pull_request").isSome = false →
       ev.type = EventType.ISSUE_COMMENT) := by
  obtain ⟨_c, issue0, is_pr, _s1, _s2, _s3, _s4, _s5, _s6, _s7, _s8, _s9,
    _s10, -, h2, h3, -, -, -, -, -, -, -, -, -, -, hevEq⟩ :=
    map_issue_comment_event_inv hev
  have hiss : issue0 = issue := by
    have h := h2.symm.trans hi
    injection h
  rw [hiss, hfs] at h3
  subst hfs
  have hin : is_pr = (List.lookup "pull_request" fs).isSome := by
    simp only [Json.pyIn, Except.ok.injEq] at h3
    rw [← h3, any_fst_eq_lookup_isSome]
  subst hevEq
  constructor
  · cases hlook : (List.lookup "pull_request" fs).isSome with
    | true =>
        rw [hlook] at hin
        subst hin
        simp [Json.lookup?, hlook]
    | false =>
        rw [hlook] at hin
        subst hin
        simp [Json.lookup?, hlook]
  · intro hlook
    simp only [Json.lookup?] at hlook
    rw [hlook] at hin
    subst hin
    simp

/-- Witness for C4 at the linked and unlinked comment fixtures. -/
theorem issue_comment_type_spec_witness :
    map_issue_comment_event "T" commentFixturePayload "d-comment"
      = .ok commentFixtureEvent ∧
    commentFixtureEvent.type = EventType.PR_COMMENT ∧
    map_issue_comment_event "T" commentIssueFixturePayload "d-comment2"
      = .ok commentIssueFixtureEvent ∧
    commentIssueFixtureEvent.type = EventType.ISSUE_COMMENT := by
  refine ⟨commentFixture_maps, ?_, commentIssueFixture_maps, ?_⟩
  · exact (issue_comment_type_spec "T" "d-comment" commentFixturePayload _ _
      commentFixtureEvent (by rfl) rfl commentFixture_maps).1.mpr (by rfl)
  · exact (issue_comment_type_spec "T" "d-comment2"
      commentIssueFixturePayload _ _ commentIssueFixtureEvent (by rfl) rfl
      commentIssueFixture_maps).2 (by rfl)

/-- Witness for C2 at the fixture secret and body: the correct digest
verifies; a one-character secret change, an empty header and an unprefixed
header all fail. -/
theorem verify_signature_spec_witness :
    verify_signature (utf8Encode "test-secret") (utf8Encode "{}")
      "sha256=2f59040b63b7200598444239da2c9a4f3abc5c434259b23126d72514dab8cd09"
      = true ∧
    verify_signature (utf8Encode "test-secrex") (utf8Encode "{}")
      "sha256=2f59040b63b7200598444239da2c9a4f3abc5c434259b23126d72514dab8cd09"
      = false ∧
    verify_signature (utf8Encode "test-secret") (utf8Encode "{}") "" = false ∧
    verify_signature (utf8Encode "test-secret") (utf8Encode "{}") "invalid"
      = false := by
  have h1 := (verify_signature_spec (utf8Encode "test-secret")
    (utf8Encode "{}")
    "sha256=2f59040b63b7200598444239da2c9a4f3abc5c434259b23126d72514dab8cd09").2.2.2.1
    (by decide) (by decide)
  have h2 := (verify_signature_spec (utf8Encode "test-secret")
    (utf8Encode "{}")
    "sha256=2f59040b63b7200598444239da2c9a4f3abc5c434259b23126d72514dab8cd09").2.2.2.2
    (utf8Encode "test-secrex") (utf8Encode "{}") h1 (by decide)
  have h3 := (verify_signature_spec (utf8Encode "test-secret")
    (utf8Encode "{}") "").2.1 rfl
  have h4 := (verify_signature_spec (utf8Encode "test-secret")
    (utf8Encode "{}") "invalid").2.2.1 (by decide)
  exact ⟨h1, h2, h3, h4⟩

/-- A successful push mapping carries the delivery id and `github` source. -/
theorem map_push_event_id_source {now : String} {p : Json} {d : String}
    {ev : StandardEvent} (h : map_push_event now p d = .ok ev) :
    ev.id = d ∧ ev.source = "github" := by
  obtain ⟨_, _, _, _, _, _, _, _, _, _, _, _, _, _, _, -, -, -, -, -, -, -,
    -, -, -, -, -, -, -, -, hevEq⟩ := map_push_event_inv h
  subst hevEq
  exact ⟨rfl, rfl⟩

/-- A successful pull-request mapping carries the delivery id and `github`
source. -/
theorem map_pull_request_event_id_source {now : String} {p : Json}
    {d : String} {ev : StandardEvent}
    (h : map_pull_request_event now p d = .ok ev) :
    ev.id = d ∧ ev.source = "github" := by
  obtain ⟨_, _, _, _, _, _, _, _, _, _, _, _, _, _, _, _, _, _, _, _, _, _,
    -, -, -, -, -, -, -, -, -, -, -, -, -, -, -, -, -, -, -, -, -, -,
    hevEq⟩ := map_pull_request_event_inv h
  subst hevEq
  exact ⟨rfl, rfl⟩

/-- A successful issue mapping carries the delivery id and `github` source. -/
theorem map_issue_event_id_source {now : String} {p : Json} {d : String}
    {ev : StandardEvent} (h : map_issue_event now p d = .ok ev) :
    ev.id = d ∧ ev.source = "github" := by
  obtain ⟨_, _, _, _, _, _, _, _, _, _, _, _, _, _, _, _, _, _, -, -, -, -,
    -, -, -, -, -, -, -, -, -, -, -, -, -, -, hevEq⟩ := map_issue_event_inv h
  subst hevEq
  exact ⟨rfl, rfl⟩

/-- A successful issue-comment mapping carries the delivery id and `github`
source. -/
theorem map_issue_comment_event_id_source {now : String} {p : Json}
    {d : String} {ev : StandardEvent}
    (h : map_issue_comment_event now p d = .ok ev) :
    ev.id = d ∧ ev.source = "github" := by
  obtain ⟨_, _, _, _, _, _, _, _, _, _, _, _, _, -, -, -, -, -, -, -, -, -,
    -, -, -, -, hevEq⟩ := map_issue_comment_event_inv h
  subst hevEq
  exact ⟨rfl, rfl⟩

/-- A successful review mapping carries the delivery id and `github`
source. -/
theorem map_pull_request_review_event_id_source {now : String} {p : Json}
    {d : String} {ev : StandardEvent}
    (h : map_pull_request_review_event now p d = .ok ev) :
    ev.id = d ∧ ev.source = "github" := by
  obtain ⟨_, _, _, _, _, _, _, _, _, _, _, _, _, -, -, -, -, -, -, -, -, -,
    -, -, -, -, hevEq⟩ := map_pull_request_review_event_inv h
  subst hevEq
  exact ⟨rfl, rfl⟩

/-- A successful release mapping carries the delivery id and `github`
source. -/
theorem map_release_event_id_source {now : String} {p : Json} {d : String}
    {ev : StandardEvent} (h : map_release_event now p d = .ok ev) :
    ev.id = d ∧ ev.source = "github" := by
  obtain ⟨_, _, _, _, _, _, _, _, _, _, _, _, -, -, -, -, -, -, -, -, -, -,
    -, -, hevEq⟩ := map_release_event_inv h
  subst hevEq
  exact ⟨rfl, rfl⟩

/-- C6: every mapper found in the registry stamps the produced event with
the delivery id and the `github` source. -/
theorem registered_mapper_id_source_spec (cat : String)
    (m : String → Json → String → Except PyErr StandardEvent)
    (hm : event_mappers cat = some m) (now : String) (p : Json) (d : String)
    (ev : StandardEvent) (hev : m now p d = .ok ev) :
    ev.id = d ∧ ev.source = "github" := by
  unfold event_mappers at hm
  by_cases hc1 : cat = "push"
  · rw [if_pos hc1] at hm
    injection hm with hm
    subst hm
    exact map_push_event_id_source hev
  · rw [if_neg hc1] at hm
    by_cases hc2 : cat = "pull_request"
    · rw [if_pos hc2] at hm
      injection hm with hm
      subst hm
      exact map_pull_request_event_id_source hev
    · rw [if_neg hc2] at hm
      by_cases hc3 : cat = "issues"
      · rw [if_pos hc3] at hm
        injection hm with hm
        subst hm
        exact map_issue_event_id_source hev
      · rw [if_neg hc3] at hm
        by_cases hc4 : cat = "issue_comment"
        · rw [if_pos hc4] at hm
          injection hm with hm
          subst hm
          exact map_issue_comment_event_id_source hev
        · rw [if_neg hc4] at hm
          by_cases hc5 : cat = "pull_request_review"
          · rw [if_pos hc5] at hm
            injection hm with hm
            subst hm
            exact map_pull_request_review_event_id_source hev
          · rw [if_neg hc5] at hm
            by_cases hc6 : cat = "release"
            · rw [if_pos hc6] at hm
              injection hm with hm
              subst hm
              exact map_release_event_id_source hev
            · rw [if_neg hc6] at hm
              exact absurd hm (by simp)

/-- Witness for C6 at the registered `push` category and the push fixture. -/
theorem registered_mapper_id_source_spec_witness :
    event_mappers "push" = some map_push_event ∧
    map_push_event "T" pushFixturePayload "d-push" = .ok pushFixtureEvent ∧
    pushFixtureEvent.id = "d-push" ∧ pushFixtureEvent.source = "github" :=
  ⟨rfl, pushFixture_maps,
   registered_mapper_id_source_spec "push" map_push_event rfl "T"
     pushFixturePayload "d-push" pushFixtureEvent pushFixture_maps⟩

/-- C3: a successful push mapping emits exactly one event whose `changes`
sequence has one entry per commit (possibly zero), each with kind COMMIT and
file lists taken verbatim, in order, from the commit's `added`, `modified`
and `removed` lists. -/
theorem push_changes_spec (now d : String) (p commits : Json) (cs : List Json)
    (ev : StandardEvent)
    (hc : p.dictGet "commits" (Json.arr []) = .ok commits)
    (hcs : pyIterList commits = .ok cs)
    (hev : map_push_event now p d = .ok ev) :
    ev.changes.length = cs.length ∧
    ∀ i (hi : i < cs.length) (hi2 : i < ev.changes.length),
      (ev.changes.get ⟨i, hi2⟩).type = ChangeType.COMMIT ∧
      (ev.changes.get ⟨i, hi2⟩).files_added
        = ((cs.get ⟨i, hi⟩).lookup? "added").getD (Json.arr []) ∧
      (ev.changes.get ⟨i, hi2⟩).files_modified
        = ((cs.get ⟨i, hi⟩).lookup? "modified").getD (Json.arr []) ∧
      (ev.changes.get ⟨i, hi2⟩).files_removed
        = ((cs.get ⟨i, hi⟩).lookup? "removed").getD (Json.arr []) := by
  obtain ⟨commits0, cs0, changes, _a1, _a2, _a3, _a4, _a5, _a6, _a7, _a8,
    _a9, _a10, _a11, _a12, h1, h2, h3, -, -, -, -, -, -, -, -, -, -, -, -,
    hevEq⟩ := map_push_event_inv hev
  have hcom : commits0 = commits := by
    have h := h1.symm.trans hc
    injection h
  rw [hcom] at h2
  have hcs0 : cs0 = cs := by
    have h := h2.symm.trans hcs
    injection h
  rw [hcs0] at h3
  obtain ⟨hlen, hpt⟩ := map_push_commits_inv h3
  subst hevEq
  refine ⟨hlen, ?_⟩
  intro i hi hi2
  have hx : i < changes.length := hi2
  have hch := hpt i hi hx
  obtain ⟨cid, msg, ts, author, username, name, email, added, modified,
    removed, -, -, -, -, -, -, -, h8, h9, h10, hchEq⟩ :=
    map_push_commit_inv hch
  have e1 : (changes.get ⟨i, hx⟩).type = ChangeType.COMMIT := by
    rw [hchEq]
  have e2 : (changes.get ⟨i, hx⟩).files_added = added := by
    rw [hchEq]
  have e3 : (changes.get ⟨i, hx⟩).files_modified = modified := by
    rw [hchEq]
  have e4 : (changes.get ⟨i, hx⟩).files_removed = removed := by
    rw [hchEq]
  exact ⟨e1, e2.trans (dictGet_ok_lookup h8),
    e3.trans (dictGet_ok_lookup h9), e4.trans (dictGet_ok_lookup h10)⟩

/-- Witness for C3 at the one-commit push fixture. -/
theorem push_changes_spec_witness :
    map_push_event "T" pushFixturePayload "d-push" = .ok pushFixtureEvent ∧
    pushFixtureEvent.changes.length = 1 ∧
    (∀ i (hi : i < ([commitFixture] : List Json).length)
        (hi2 : i < pushFixtureEvent.changes.length),
      (pushFixtureEvent.changes.get ⟨i, hi2⟩).type = ChangeType.COMMIT ∧
      (pushFixtureEvent.changes.get ⟨i, hi2⟩).files_added
        = Json.arr [Json.str "file1.txt"]) := by
  have h := push_changes_spec "T" "d-push" pushFixturePayload
    (Json.arr [commitFixture]) [commitFixture] pushFixtureEvent
    (by rfl) (by rfl) pushFixture_maps
  refine ⟨pushFixture_maps, by simpa using h.1, ?_⟩
  intro i hi hi2
  have hi' : i < 1 := by simpa using hi
  have hz : i = 0 := by omega
  subst hz
  have h2 := h.2 0 hi hi2
  exact ⟨h2.1, by rw [h2.2.1]; rfl⟩

/-- C10: every change a successful push mapping produces carries an author
`Actor` whose id is the empty string, and success requires each commit's
author object to supply `username`, `name` and `email` (so a missing key
makes the mapper fail instead). -/
theorem push_commit_author_spec (now d : String) (p : Json)
    (ev : StandardEvent) (hev : map_push_event now p d = .ok ev) :
    (∀ ch ∈ ev.changes, ∃ a, ch.author = some a ∧ a.id = "") ∧
    (∀ commits cs, p.dictGet "commits" (Json.arr []) = .ok commits →
       pyIterList commits = .ok cs →
       ∀ c ∈ cs, ∃ au, c.getItem "author" = .ok au ∧
         (∃ u, au.getItem "username" = .ok u) ∧
         (∃ n, au.getItem "name" = .ok n) ∧
         (∃ e, au.getItem "email" = .ok e)) := by
  obtain ⟨commits0, cs0, changes, _a1, _a2, _a3, _a4, _a5, _a6, _a7, _a8,
    _a9, _a10, _a11, _a12, h1, h2, h3, -, -, -, -, -, -, -, -, -, -, -, -,
    hevEq⟩ := map_push_event_inv hev
  obtain ⟨hlen, hpt⟩ := map_push_commits_inv h3
  constructor
  · intro ch hch
    have hch' : ch ∈ changes := by
      rw [hevEq] at hch
      exact hch
    obtain ⟨⟨i, hilt⟩, hgeti⟩ := List.mem_iff_get.mp hch'
    have hx : i < cs0.length := by
      rw [← hlen]
      exact hilt
    have hch2 := hpt i hx hilt
    obtain ⟨cid, msg, ts, author, username, name, email, added, modified,
      removed, -, -, -, -, -, -, -, -, -, -, hchEq⟩ :=
      map_push_commit_inv hch2
    refine ⟨{ id := "", username := username, name := name, email := email },
      ?_, rfl⟩
    rw [← hgeti, hchEq]
  · intro commits cs hc hcs c hcmem
    have hcom : commits0 = commits := by
      have h := h1.symm.trans hc
      injection h
    rw [hcom] at h2
    have hcs0 : cs0 = cs := by
      have h := h2.symm.trans hcs
      injection h
    subst hcs0
    obtain ⟨⟨i, hilt⟩, hgeti⟩ := List.mem_iff_get.mp hcmem
    have hx : i < changes.length := by
      rw [hlen]
      exact hilt
    have hch2 := hpt i hilt hx
    rw [hgeti] at hch2
    obtain ⟨cid, msg, ts, author, username, name, email, added, modified,
      removed, -, -, -, h4, h5, h6, h7, -, -, -, -⟩ :=
      map_push_commit_inv hch2
    exact ⟨author, h4, ⟨username, h5⟩, ⟨name, h6⟩, ⟨email, h7⟩⟩

/-- Witness for C10 at the one-commit push fixture. -/
theorem push_commit_author_spec_witness :
    map_push_event "T" pushFixturePayload "d-push" = .ok pushFixtureEvent ∧
    ∀ ch ∈ pushFixtureEvent.changes, ∃ a, ch.author = some a ∧ a.id = "" :=
  ⟨pushFixture_maps,
   (push_commit_author_spec "T" "d-push" pushFixturePayload pushFixtureEvent
     pushFixture_maps).1⟩

/-- C8 (amended): every one of the six mappers leaves the metadata fields of
the other categories unset (`None`) and the unused list/custom fields at
their empty dataclass defaults; within a mapper's own category the code
supplies zero-valued defaults for exactly these absent optional source
fields: the pull-request mapper sets `pr_merged` and `pr_draft` to `False`,
the review mapper sets `review_body` to `""`, and the push mapper sets
`created`, `deleted` and `forced` to `False` — while the push mapper's
`base_ref` and `compare` stay unset (`None`) when absent. -/
theorem metadata_category_fields_spec :
    (∀ (now d : String) (p : Json) (ev : StandardEvent),
       map_push_event now p d = .ok ev →
       (ev.metadata.pr_number = Json.null ∧
        ev.metadata.pr_title = Json.null ∧
        ev.metadata.pr_state = Json.null ∧
        ev.metadata.pr_url = Json.null ∧
        ev.metadata.pr_merged = Json.null ∧
        ev.metadata.pr_draft = Json.null ∧
        ev.metadata.pr_base_ref = Json.null ∧
        ev.metadata.pr_head_ref = Json.null ∧
        ev.metadata.pr_author = Json.null ∧
        ev.metadata.issue_number = Json.null ∧
        ev.metadata.issue_title = Json.null ∧
        ev.metadata.issue_state = Json.null ∧
        ev.metadata.issue_url = Json.null ∧
        ev.metadata.issue_author = Json.null ∧
        ev.metadata.comment_id = Json.null ∧
        ev.metadata.comment_body = Json.null ∧
        ev.metadata.comment_url = Json.null ∧
        ev.metadata.review_id = Json.null ∧
        ev.metadata.review_state = Json.null ∧
        ev.metadata.review_body = Json.null ∧
        ev.metadata.review_url = Json.null ∧
        ev.metadata.release_id = Json.null ∧
        ev.metadata.release_name = Json.null ∧
        ev.metadata.release_tag = Json.null ∧
        ev.metadata.release_url = Json.null ∧
        ev.metadata.release_draft = Json.null ∧
        ev.metadata.release_prerelease = Json.null ∧
        ev.metadata.action = Json.null ∧
        ev.metadata.labels = [] ∧
        ev.metadata.assignees = [] ∧
        ev.metadata.custom = []) ∧
       (p.lookup? "created" = none → ev.metadata.created = Json.bool false) ∧
       (p.lookup? "deleted" = none → ev.metadata.deleted = Json.bool false) ∧
       (p.lookup? "forced" = none → ev.metadata.forced = Json.bool false) ∧
       (p.lookup? "base_ref" = none → ev.metadata.base_ref = Json.null) ∧
       (p.lookup? "compare" = none → ev.metadata.compare_url = Json.null)) ∧
    (∀ (now d : String) (p pr : Json) (ev : StandardEvent),
       map_pull_request_event now p d = .ok ev →
       p.getItem "pull_request" = .ok pr →
       (ev.metadata.ref = Json.null ∧
        ev.metadata.before = Json.null ∧
        ev.metadata.after = Json.null ∧
        ev.metadata.created = Json.null ∧
        ev.metadata.deleted = Json.null ∧
        ev.metadata.forced = Json.null ∧
        ev.metadata.base_ref = Json.null ∧
        ev.metadata.compare_url = Json.null ∧
        ev.metadata.issue_number = Json.null ∧
        ev.metadata.issue_title = Json.null ∧
        ev.metadata.issue_state = Json.null ∧
        ev.metadata.issue_url = Json.null ∧
        ev.metadata.issue_author = Json.null ∧
        ev.metadata.comment_id = Json.null ∧
        ev.metadata.comment_body = Json.null ∧
        ev.metadata.comment_url = Json.null ∧
        ev.metadata.review_id = Json.null ∧
        ev.metadata.review_state = Json.null ∧
        ev.metadata.review_body = Json.null ∧
        ev.metadata.review_url = Json.null ∧
        ev.metadata.release_id = Json.null ∧
        ev.metadata.release_name = Json.null ∧
        ev.metadata.release_tag = Json.null ∧
        ev.metadata.release_url = Json.null ∧
        ev.metadata.release_draft = Json.null ∧
        ev.metadata.release_prerelease = Json.null ∧
        ev.metadata.assignees = [] ∧
        ev.metadata.custom = []) ∧
       (pr.lookup? "merged" = none →
          ev.metadata.pr_merged = Json.bool false) ∧
       (pr.lookup? "draft" = none →
          ev.metadata.pr_draft = Json.bool false)) ∧
    (∀ (now d : String) (p : Json) (ev : StandardEvent),
       map_issue_event now p d = .ok ev →
       ev.metadata.ref = Json.null ∧
       ev.metadata.before = Json.null ∧
       ev.metadata.after = Json.null ∧
       ev.metadata.created = Json.null ∧
       ev.metadata.deleted = Json.null ∧
       ev.metadata.forced = Json.null ∧
       ev.metadata.base_ref = Json.null ∧
       ev.metadata.compare_url = Json.null ∧
       ev.metadata.pr_number = Json.null ∧
       ev.metadata.pr_title = Json.null ∧
       ev.metadata.pr_state = Json.null ∧
       ev.metadata.pr_url = Json.null ∧
       ev.metadata.pr_merged = Json.null ∧
       ev.metadata.pr_draft = Json.null ∧
       ev.metadata.pr_base_ref = Json.null ∧
       ev.metadata.pr_head_ref = Json.null ∧
       ev.metadata.pr_author = Json.null ∧
       ev.metadata.comment_id = Json.null ∧
       ev.metadata.comment_body = Json.null ∧
       ev.metadata.comment_url = Json.null ∧
       ev.metadata.review_id = Json.null ∧
       ev.metadata.review_state = Json.null ∧
       ev.metadata.review_body = Json.null ∧
       ev.metadata.review_url = Json.null ∧
       ev.metadata.release_id = Json.null ∧
       ev.metadata.release_name = Json.null ∧
       ev.metadata.release_tag = Json.null ∧
       ev.metadata.release_url = Json.null ∧
       ev.metadata.release_draft = Json.null ∧
       ev.metadata.release_prerelease = Json.null ∧
       ev.metadata.custom = []) ∧
    (∀ (now d : String) (p : Json) (ev : StandardEvent),
       map_issue_comment_event now p d = .ok ev →
       ev.metadata.ref = Json.null ∧
       ev.metadata.before = Json.null ∧
       ev.metadata.after = Json.null ∧
       ev.metadata.created = Json.null ∧
       ev.metadata.deleted = Json.null ∧
       ev.metadata.forced = Json.null ∧
       ev.metadata.base_ref = Json.null ∧
       ev.metadata.compare_url = Json.null ∧
       ev.metadata.pr_number = Json.null ∧
       ev.metadata.pr_title = Json.null ∧
       ev.metadata.pr_state = Json.null ∧
       ev.metadata.pr_url = Json.null ∧
       ev.metadata.pr_merged = Json.null ∧
       ev.metadata.pr_draft = Json.null ∧
       ev.metadata.pr_base_ref = Json.null ∧
       ev.metadata.pr_head_ref = Json.null ∧
       ev.metadata.pr_author = Json.null ∧
       ev.metadata.issue_state = Json.null ∧
       ev.metadata.issue_url = Json.null ∧
       ev.metadata.issue_author = Json.null ∧
       ev.metadata.review_id = Json.null ∧
       ev.metadata.review_state = Json.null ∧
       ev.metadata.review_body = Json.null ∧
       ev.metadata.review_url = Json.null ∧
       ev.metadata.release_id = Json.null ∧
       ev.metadata.release_name = Json.null ∧
       ev.metadata.release_tag = Json.null ∧
       ev.metadata.release_url = Json.null ∧
       ev.metadata.release_draft = Json.null ∧
       ev.metadata.release_prerelease = Json.null ∧
       ev.metadata.labels = [] ∧
       ev.metadata.assignees = [] ∧
       ev.metadata.custom = []) ∧
    (∀ (now d : String) (p review : Json) (ev : StandardEvent),
       map_pull_request_review_event now p d = .ok ev →
       p.getItem "review" = .ok review →
       (ev.metadata.pr_merged = Json.null ∧
        ev.metadata.pr_draft = Json.null ∧
        ev.metadata.pr_state = Json.null ∧
        ev.metadata.pr_url = Json.null ∧
        ev.metadata.pr_base_ref = Json.null ∧
        ev.metadata.pr_head_ref = Json.null ∧
        ev.metadata.pr_author = Json.null ∧
        ev.metadata.ref = Json.null ∧
        ev.metadata.before = Json.null ∧
        ev.metadata.after = Json.null ∧
        ev.metadata.created = Json.null ∧
        ev.metadata.deleted = Json.null ∧
        ev.metadata.forced = Json.null ∧
        ev.metadata.base_ref = Json.null ∧
        ev.metadata.compare_url = Json.null ∧
        ev.metadata.issue_number = Json.null ∧
        ev.metadata.issue_title = Json.null ∧
        ev.metadata.issue_state = Json.null ∧
        ev.metadata.issue_url = Json.null ∧
        ev.metadata.issue_author = Json.null ∧
        ev.metadata.comment_id = Json.null ∧
        ev.metadata.comment_body = Json.null ∧
        ev.metadata.comment_url = Json.null ∧
        ev.metadata.release_id = Json.null ∧
        ev.metadata.release_name = Json.null ∧
        ev.metadata.release_tag = Json.null ∧
        ev.metadata.release_url = Json.null ∧
        ev.metadata.release_draft = Json.null ∧
        ev.metadata.release_prerelease = Json.null ∧
        ev.metadata.labels = [] ∧
        ev.metadata.assignees = [] ∧
        ev.metadata.custom = []) ∧
       (review.lookup? "body" = none →
          ev.metadata.review_body = Json.str "")) ∧
    (∀ (now d : String) (p : Json) (ev : StandardEvent),
       map_release_event now p d = .ok ev →
       ev.metadata.ref = Json.null ∧
       ev.metadata.before = Json.null ∧
       ev.metadata.after = Json.null ∧
       ev.metadata.created = Json.null ∧
       ev.metadata.deleted = Json.null ∧
       ev.metadata.forced = Json.null ∧
       ev.metadata.base_ref = Json.null ∧
       ev.metadata.compare_url = Json.null ∧
       ev.metadata.pr_number = Json.null ∧
       ev.metadata.pr_title = Json.null ∧
       ev.metadata.pr_state = Json.null ∧
       ev.metadata.pr_url = Json.null ∧
       ev.metadata.pr_merged = Json.null ∧
       ev.metadata.pr_draft = Json.null ∧
       ev.metadata.pr_base_ref = Json.null ∧
       ev.metadata.pr_head_ref = Json.null ∧
       ev.metadata.pr_author = Json.null ∧
       ev.metadata.issue_number = Json.null ∧
       ev.metadata.issue_title = Json.null ∧
       ev.metadata.issue_state = Json.null ∧
       ev.metadata.issue_url = Json.null ∧
       ev.metadata.issue_author = Json.null ∧
       ev.metadata.comment_id = Json.null ∧
       ev.metadata.comment_body = Json.null ∧
       ev.metadata.comment_url = Json.null ∧
       ev.metadata.review_id = Json.null ∧
       ev.metadata.review_state = Json.null ∧
       ev.metadata.review_body = Json.null ∧
       ev.metadata.review_url = Json.null ∧
       ev.metadata.labels = [] ∧
       ev.metadata.assignees = [] ∧
       ev.metadata.custom = []) := by
  refine ⟨?_, ?_, ?_, ?_, ?_, ?_⟩
  · intro now d p ev hev
    obtain ⟨_, _, _, _, _, _, _, _, _, _, vcr, vde, vfo, vbr, vco, -, -, -,
      -, -, -, -, -, -, -, h11, h12, h13, h14, h15, hevEq⟩ :=
      map_push_event_inv hev
    have hcr : vcr = (p.lookup? "created").getD (Json.bool false) :=
      dictGet_ok_lookup h11
    have hde : vde = (p.lookup? "deleted").getD (Json.bool false) :=
      dictGet_ok_lookup h12
    have hfo : vfo = (p.lookup? "forced").getD (Json.bool false) :=
      dictGet_ok_lookup h13
    have hbr : vbr = (p.lookup? "base_ref").getD Json.null :=
      dictGet_ok_lookup h14
    have hco : vco = (p.lookup? "compare").getD Json.null :=
      dictGet_ok_lookup h15
    subst hevEq
    refine ⟨⟨rfl, rfl, rfl, rfl, rfl, rfl, rfl, rfl, rfl, rfl, rfl, rfl, rfl, rfl, rfl, rfl, rfl, rfl, rfl, rfl, rfl, rfl, rfl, rfl, rfl, rfl, rfl, rfl, rfl, rfl, rfl⟩, ?_, ?_, ?_, ?_, ?_⟩
    · intro hnone
      show vcr = Json.bool false
      rw [hcr, hnone]
      rfl
    · intro hnone
      show vde = Json.bool false
      rw [hde, hnone]
      rfl
    · intro hnone
      show vfo = Json.bool false
      rw [hfo, hnone]
      rfl
    · intro hnone
      show vbr = Json.null
      rw [hbr, hnone]
      rfl
    · intro hnone
      show vco = Json.null
      rw [hco, hnone]
      rfl
  · intro now d p pr ev hev hpr
    obtain ⟨pr0, action0, merged, _s1, _s2, _s3, _s4, _s5, _s6, _s7, _s8,
      _s9, _s10, _s11, _s12, _s13, _s14, _s15, _s16, _s17, _s18, _s19,
      h1, -, -, -, -, -, -, -, -, -, -, h12, h13, -, -, -, -, -, -, -, -, -,
      hevEq⟩ := map_pull_request_event_inv hev
    have hpr0 : pr0 = pr := by
      have h := h1.symm.trans hpr
      injection h
    rw [hpr0] at h12 h13
    have hm : _s9 = (pr.lookup? "merged").getD (Json.bool false) :=
      dictGet_ok_lookup h12
    have hdr : _s10 = (pr.lookup? "draft").getD (Json.bool false) :=
      dictGet_ok_lookup h13
    subst hevEq
    refine ⟨⟨rfl, rfl, rfl, rfl, rfl, rfl, rfl, rfl, rfl, rfl, rfl, rfl, rfl, rfl, rfl, rfl, rfl, rfl, rfl, rfl, rfl, rfl, rfl, rfl, rfl, rfl, rfl, rfl⟩, ?_, ?_⟩
    · intro hnone
      show _s9 = Json.bool false
      rw [hm, hnone]
      rfl
    · intro hnone
      show _s10 = Json.bool false
      rw [hdr, hnone]
      rfl
  · intro now d p ev hev
    obtain ⟨_, _, _, _, _, _, _, _, _, _, _, _, _, _, _, _, _, _, -, -, -,
      -, -, -, -, -, -, -, -, -, -, -, -, -, -, -, hevEq⟩ :=
      map_issue_event_inv hev
    subst hevEq
    exact ⟨rfl, rfl, rfl, rfl, rfl, rfl, rfl, rfl, rfl, rfl, rfl, rfl, rfl, rfl, rfl, rfl, rfl, rfl, rfl, rfl, rfl, rfl, rfl, rfl, rfl, rfl, rfl, rfl, rfl, rfl, rfl⟩
  · intro now d p ev hev
    obtain ⟨_, _, _, _, _, _, _, _, _, _, _, _, _, -, -, -, -, -, -, -, -,
      -, -, -, -, -, hevEq⟩ := map_issue_comment_event_inv hev
    subst hevEq
    exact ⟨rfl, rfl, rfl, rfl, rfl, rfl, rfl, rfl, rfl, rfl, rfl, rfl, rfl, rfl, rfl, rfl, rfl, rfl, rfl, rfl, rfl, rfl, rfl, rfl, rfl, rfl, rfl, rfl, rfl, rfl, rfl, rfl, rfl⟩
  · intro now d p review ev hev hrev
    obtain ⟨review0, _t1, _t2, _t3, _t4, _t5, _t6, _t7, _t8, _t9, _t10,
      _t11, _t12, h1, -, -, -, -, -, -, -, h9, -, -, -, -, hevEq⟩ :=
      map_pull_request_review_event_inv hev
    have hrev0 : review0 = review := by
      have h := h1.symm.trans hrev
      injection h
    rw [hrev0] at h9
    have hb : _t8 = (review.lookup? "body").getD (Json.str "") :=
      dictGet_ok_lookup h9
    subst hevEq
    refine ⟨⟨rfl, rfl, rfl, rfl, rfl, rfl, rfl, rfl, rfl, rfl, rfl, rfl, rfl, rfl, rfl, rfl, rfl, rfl, rfl, rfl, rfl, rfl, rfl, rfl, rfl, rfl, rfl, rfl, rfl, rfl, rfl, rfl⟩, ?_⟩
    intro hnone
    show _t8 = Json.str ""
    rw [hb, hnone]
    rfl
  · intro now d p ev hev
    obtain ⟨_, _, _, _, _, _, _, _, _, _, _, _, -, -, -, -, -, -, -, -, -,
      -, -, -, hevEq⟩ := map_release_event_inv hev
    subst hevEq
    exact ⟨rfl, rfl, rfl, rfl, rfl, rfl, rfl, rfl, rfl, rfl, rfl, rfl, rfl, rfl, rfl, rfl, rfl, rfl, rfl, rfl, rfl, rfl, rfl, rfl, rfl, rfl, rfl, rfl, rfl, rfl, rfl, rfl⟩

/-- Counterexample to C8 as stated: the pull-request fixture has no `merged`
key, yet the mapper sets `pr_merged` to `False` (a zero value) rather than
leaving it unset; likewise a review without a `body` gets `review_body`
set to the empty string. -/
theorem metadata_unset_counterexample :
    map_pull_request_event "T" prFixturePayload "d-pr" = .ok prFixtureEvent ∧
    prFixtureObject.lookup? "merged" = none ∧
    prFixtureEvent.metadata.pr_merged = Json.bool false ∧
    prFixtureEvent.metadata.pr_merged ≠ Json.null ∧
    map_pull_request_review_event "T" reviewFixturePayload "d-review"
      = .ok reviewFixtureEvent ∧
    reviewFixtureObject.lookup? "body" = none ∧
    reviewFixtureEvent.metadata.review_body = Json.str "" ∧
    reviewFixtureEvent.metadata.review_body ≠ Json.null :=
  ⟨prFixture_maps, rfl, rfl, by intro h; exact Json.noConfusion h,
   reviewFixture_maps, rfl, rfl, by intro h; exact Json.noConfusion h⟩

/-- Witness for the amended C8: one instantiation of every mapper conjunct
at the concrete fixtures. -/
theorem metadata_category_fields_spec_witness :
    pushFixtureEvent.metadata.pr_number = Json.null ∧
    pushFixtureEvent.metadata.created = Json.bool false ∧
    pushFixtureEvent.metadata.base_ref = Json.null ∧
    prFixtureEvent.metadata.ref = Json.null ∧
    prFixtureEvent.metadata.pr_merged = Json.bool false ∧
    issueFixtureEvent.metadata.ref = Json.null ∧
    commentFixtureEvent.metadata.ref = Json.null ∧
    reviewFixtureEvent.metadata.pr_merged = Json.null ∧
    reviewFixtureEvent.metadata.review_body = Json.str "" ∧
    releaseFixtureEvent.metadata.ref = Json.null := by
  have hpush := metadata_category_fields_spec.1 "T" "d-push"
    pushFixturePayload pushFixtureEvent pushFixture_maps
  have hpr := metadata_category_fields_spec.2.1 "T" "d-pr" prFixturePayload
    prFixtureObject prFixtureEvent prFixture_maps (by rfl)
  have hiss := metadata_category_fields_spec.2.2.1 "T" "d-issue"
    issueFixturePayload issueFixtureEvent issueFixture_maps
  have hcom := metadata_category_fields_spec.2.2.2.1 "T" "d-comment"
    commentFixturePayload commentFixtureEvent commentFixture_maps
  have hrev := metadata_category_fields_spec.2.2.2.2.1 "T" "d-review"
    reviewFixturePayload reviewFixtureObject reviewFixtureEvent
    reviewFixture_maps (by rfl)
  have hrel := metadata_category_fields_spec.2.2.2.2.2 "T" "d-release"
    releaseFixturePayload releaseFixtureEvent releaseFixture_maps
  exact ⟨hpush.1.1, hpush.2.1 rfl, hpush.2.2.2.2.1 rfl, hpr.1.1,
    hpr.2.1 rfl, hiss.1, hcom.1, hrev.1.1, hrev.2 rfl, hrel.1⟩

/-- C9: `to_dict` renders the top-level event type as its string code, but a
change is emitted as its shallow `__dict__`: the change's kind stays a
`ChangeType` enum member and its author stays an `Actor` object, so the
resulting mapping is not JSON-compatible (`json.dumps` would raise
`TypeError` in the code's own publishers). -/
theorem to_dict_changes_not_json_compatible :
    map_push_event "T" pushFixturePayload "d-push" = .ok pushFixtureEvent ∧
    pushFixtureEvent.to_dict.dlookup "type" = some (PyVal.pstr "code.push") ∧
    (∃ chd rest, pushFixtureEvent.to_dict.dlookup "changes"
        = some (PyVal.plist (chd :: rest)) ∧
      chd.dlookup "type" = some (PyVal.penumC ChangeType.COMMIT) ∧
      (∃ a, chd.dlookup "author" = some (PyVal.pactor a))) ∧
    PyVal.jsonOk pushFixtureEvent.to_dict = false :=
  ⟨pushFixture_maps, rfl, ⟨_, _, rfl, rfl, ⟨_, rfl⟩⟩, rfl⟩

/-- Request body fixture: the JSON text `{}` as bytes. -/
def c7Body : List Nat := utf8Encode "{}"

/-- A correct signature header for `c7Body` under secret `test-secret`. -/
def c7GoodSig : String :=
  "sha256=2f59040b63b7200598444239da2c9a4f3abc5c434259b23126d72514dab8cd09"

/-- Headers with a valid signature but no event-category header. -/
def c7MissingHeaders : List (String × String) :=
  [("X-Hub-Signature-256", c7GoodSig), ("X-GitHub-Delivery", "d1")]

/-- Headers with a bad signature. -/
def c7BadSigHeaders : List (String × String) :=
  [("X-Hub-Signature-256", "sha256=badbadbad"), ("X-GitHub-Event", "push"),
   ("X-GitHub-Delivery", "d1")]

/-- Counterexample to C7 as stated: a missing routing header and a failed
signature check raise the same exception class (`ValueError`, only the
message differs), and the Flask route translates both into the same 401
response — the caller cannot tell a malformed request from an
authentication failure. -/
theorem handler_error_collapse_counterexample :
    handle_request "test-secret" "T" c7MissingHeaders c7Body
      = .error (.valueError "Missing required headers") ∧
    handle_request "test-secret" "T" c7BadSigHeaders c7Body
      = .error (.valueError "Invalid webhook signature") ∧
    (PyErr.valueError "Missing required headers").isValueError = true ∧
    (PyErr.valueError "Invalid webhook signature").isValueError = true ∧
    github_webhook [] "test-secret" "T" c7MissingHeaders c7Body []
      = ([], 401) ∧
    github_webhook [] "test-secret" "T" c7BadSigHeaders c7Body []
      = ([], 401) :=
  ⟨rfl, rfl, rfl, rfl, rfl, rfl⟩

/-- C7 (amended): `handle_request` raises `ValueError` with message
`Invalid webhook signature` on a failed signature check and `ValueError`
with message `Missing required headers` on an absent event-category or
delivery-id header; both are the same exception class, so the Flask caller
maps both (and parse failures, also `ValueError` subclasses) to the same
401 response rather than to different responses. -/
theorem handle_request_error_classes (secret now : String)
    (headers : List (String × String)) (body : List Nat) :
    (verify_signature (utf8Encode secret) body
        ((headers.lookup "X-Hub-Signature-256").getD "") = false →
       handle_request secret now headers body
         = .error (.valueError "Invalid webhook signature")) ∧
    (verify_signature (utf8Encode secret) body
        ((headers.lookup "X-Hub-Signature-256").getD "") = true →
       (pyFalsyOptStr (headers.lookup "X-GitHub-Event")
         || pyFalsyOptStr (headers.lookup "X-GitHub-Delivery")) = true →
       ∀ payload, json_loads body = .ok payload →
       handle_request secret now headers body
         = .error (.valueError "Missing required headers")) ∧
    (∀ e, handle_request secret now headers body = .error e →
       e.isValueError = true →
       ∀ pubs w, github_webhook pubs secret now headers body w
         = (w, 401)) := by
  refine ⟨?_, ?_, ?_⟩
  · intro hv
    unfold handle_request
    simp [hv]
  · intro hv hfal payload hjson
    unfold handle_request
    simp [hv, hjson, hfal]
  · intro e he hval pubs w
    unfold github_webhook
    rw [he]
    simp [hval]

/-- Witness for the amended C7 at the two concrete requests. -/
theorem handle_request_error_classes_witness :
    handle_request "test-secret" "T" c7MissingHeaders c7Body
      = .error (.valueError "Missing required headers") ∧
    handle_request "test-secret" "T" c7BadSigHeaders c7Body
      = .error (.valueError "Invalid webhook signature") ∧
    github_webhook [] "test-secret" "T" c7MissingHeaders c7Body []
      = ([], 401) ∧
    github_webhook [] "test-secret" "T" c7BadSigHeaders c7Body []
      = ([], 401) := by
  have h := handle_request_error_classes "test-secret" "T" c7MissingHeaders
    c7Body
  have h' := handle_request_error_classes "test-secret" "T" c7BadSigHeaders
    c7Body
  have h1 := h.2.1 (by decide) (by decide) (Json.obj []) (by rfl)
  have h2 := h'.1 (by decide)
  have h3 := h.2.2 _ h1 rfl [] []
  have h4 := h'.2.2 _ h2 rfl [] []
  exact ⟨h1, h2, h3, h4⟩
